import Mathlib

/-!
Verification development for `pysar/radar2geo.py` (PySAR).

The file shallowly embeds the script: Python floats become an inductive
`PFloat` over `ℚ` with explicit `nan`/`inf` values, the metadata dictionary
becomes an association list `Attr`, fallible Python code (exceptions,
`sys.exit`) becomes `Except String`, and the external collaborators
(`readfile`, `writefile`, `utils`, the `resample` object) become oracle
functions that the theorems quantify over.  `main` is embedded as a
trace-producing function so that the orchestration order is provable.
-/

set_option autoImplicit false

namespace Radar2Geo

/-! ### Model of Python floats over ℚ -/

/-- Model of a Python/NumPy double: a rational value, NaN, or a signed
infinity.  Rounding of IEEE doubles is idealised away (values are exact). -/
inductive PFloat where
  | val (q : ℚ)
  | nan
  | inf
  | ninf
  deriving DecidableEq, Repr

/-- Model of `np.isnan`. -/
def PFloat.isNan : PFloat → Bool
  | .nan => true
  | _ => false

/-- Model of float subtraction with the IEEE special values. -/
def PFloat.sub : PFloat → PFloat → PFloat
  | .val a, .val b => .val (a - b)
  | .val _, .inf => .ninf
  | .val _, .ninf => .inf
  | .val _, .nan => .nan
  | .inf, .val _ => .inf
  | .inf, .inf => .nan
  | .inf, .ninf => .inf
  | .inf, .nan => .nan
  | .ninf, .val _ => .ninf
  | .ninf, .inf => .ninf
  | .ninf, .ninf => .nan
  | .ninf, .nan => .nan
  | .nan, _ => .nan

/-- Model of Python float division: raises `ZeroDivisionError` on a zero
divisor, propagates NaN, and treats the infinities in the IEEE way. -/
def PFloat.div (x y : PFloat) : Except String PFloat :=
  match x, y with
  | x, .val b =>
    if b = 0 then .error "ZeroDivisionError: float division by zero"
    else
      match x with
      | .val a => .ok (.val (a / b))
      | .nan => .ok .nan
      | .inf => .ok (if 0 < b then .inf else .ninf)
      | .ninf => .ok (if 0 < b then .ninf else .inf)
  | .nan, _ => .ok .nan
  | _, .nan => .ok .nan
  | .val _, _ => .ok (.val 0)
  | .inf, _ => .ok .nan
  | .ninf, _ => .ok .nan

/-- Rounding half to even, the behaviour of `np.rint`. -/
def rintQ (q : ℚ) : ℤ :=
  let f := q.floor
  let frac := q - (f : ℚ)
  if frac < 1/2 then f
  else if 1/2 < frac then f + 1
  else if f % 2 = 0 then f else f + 1

/-- Model of `np.rint` on a float. -/
def PFloat.rint : PFloat → PFloat
  | .val q => .val (rintQ q)
  | .nan => .nan
  | .inf => .inf
  | .ninf => .ninf

/-- Truncation toward zero, the behaviour of Python `int()` on a float. -/
def ratTrunc (q : ℚ) : ℤ :=
  if 0 ≤ q then q.floor else -((-q).floor)

/-- Model of Python `int()` applied to a float value. -/
def PFloat.toInt : PFloat → Except String ℤ
  | .val q => .ok (ratTrunc q)
  | .nan => .error "ValueError: cannot convert float NaN to integer"
  | .inf => .error "OverflowError: cannot convert float infinity to integer"
  | .ninf => .error "OverflowError: cannot convert float infinity to integer"

/-- Decimal-looking rendering of a rational, standing in for Python
`str()` on a float.  Integral values print without a denominator. -/
def ratStr (q : ℚ) : String :=
  if q.den = 1 then toString q.num else toString q.num ++ "/" ++ toString q.den

/-- Model of Python `str()` on a float value. -/
def PFloat.toStr : PFloat → String
  | .val q => ratStr q
  | .nan => "nan"
  | .inf => "inf"
  | .ninf => "-inf"

/-! ### Model of the number-literal parsing done by Python `float()` / `int()` -/

/-- The six characters Python `str.strip()` removes. -/
def isPySpace (c : Char) : Bool :=
  c = ' ' ∨ c = '\t' ∨ c = '\n' ∨ c = '\r' ∨ c = '\x0b' ∨ c = '\x0c'

/-- Model of `str.strip()` on a character list. -/
def charTrim (cs : List Char) : List Char :=
  ((cs.dropWhile isPySpace).reverse.dropWhile isPySpace).reverse

/-- Accumulator loop of `pySplitComma`. -/
def splitCommaAux : List Char → List Char → List (List Char)
  | [], acc => [acc.reverse]
  | c :: t, acc =>
    if c = ',' then acc.reverse :: splitCommaAux t [] else splitCommaAux t (c :: acc)

/-- Model of Python `str.split(',')`: the empty string yields `[""]`, and
consecutive separators yield empty pieces. -/
def pySplitComma (s : String) : List String :=
  (splitCommaAux s.toList []).map String.mk

/-- Numeric value of a digit list (digits are assumed checked separately). -/
def digitsToNat (cs : List Char) : ℕ :=
  cs.foldl (fun a c => 10 * a + (c.toNat - 48)) 0

/-- Parse an unsigned mantissa `digits[.digits]`; at least one digit. -/
def mantissa? (cs : List Char) : Option ℚ :=
  let p := cs.span (fun c => c ≠ '.')
  let ip := p.1
  let fp := match p.2 with
    | [] => []
    | _ :: t => t
  if fp.any (fun c => c = '.') then none
  else if ¬ (ip.all Char.isDigit ∧ fp.all Char.isDigit) then none
  else if ip.isEmpty ∧ fp.isEmpty then none
  else some ((digitsToNat ip : ℚ) + (digitsToNat fp : ℚ) / (10 : ℚ) ^ fp.length)

/-- Parse an optionally signed decimal exponent. -/
def expo? (cs : List Char) : Option ℤ :=
  let p : Bool × List Char :=
    match cs with
    | c :: t => if c = '+' then (false, t) else if c = '-' then (true, t) else (false, cs)
    | [] => (false, cs)
  if p.2 ≠ [] ∧ p.2.all Char.isDigit then
    some (if p.1 then -(digitsToNat p.2 : ℤ) else (digitsToNat p.2 : ℤ))
  else none

/-- Parse an unsigned float literal `mantissa[(e|E)exponent]`. -/
def pyFloatNum? (cs : List Char) : Option ℚ :=
  let p := cs.span (fun c => c ≠ 'e' ∧ c ≠ 'E')
  match p.2 with
  | [] => mantissa? p.1
  | _ :: ex =>
    match mantissa? p.1, expo? ex with
    | some m, some e =>
      some (if 0 ≤ e then m * (10 : ℚ) ^ e.toNat else m / (10 : ℚ) ^ (-e).toNat)
    | _, _ => none

/-- Model of the Python builtin `float(str)`: strips surrounding whitespace,
accepts an optional sign, the case-insensitive words `inf`/`infinity`/`nan`,
and decimal literals with an optional fraction and exponent.  (PEP 515
digit-group underscores are not modelled.) -/
def pyFloat? (s : String) : Option PFloat :=
  let cs := charTrim s.toList
  let p : Bool × List Char :=
    match cs with
    | c :: t => if c = '+' then (false, t) else if c = '-' then (true, t) else (false, cs)
    | [] => (false, cs)
  let low := p.2.map Char.toLower
  if low = "inf".toList ∨ low = "infinity".toList then
    some (if p.1 then .ninf else .inf)
  else if low = "nan".toList then some .nan
  else (pyFloatNum? p.2).map (fun q => .val (if p.1 then -q else q))

/-- Model of the Python builtin `int(str)`: strips surrounding whitespace,
accepts an optional sign followed by decimal digits. -/
def pyInt? (s : String) : Option ℤ :=
  let cs := charTrim s.toList
  let p : Bool × List Char :=
    match cs with
    | c :: t => if c = '+' then (false, t) else if c = '-' then (true, t) else (false, cs)
    | [] => (false, cs)
  if p.2 ≠ [] ∧ p.2.all Char.isDigit then
    some (if p.1 then -(digitsToNat p.2 : ℤ) else (digitsToNat p.2 : ℤ))
  else none

/-- Check that the first character list starts the second. -/
def startsChars : List Char → List Char → Bool
  | [], _ => true
  | _ :: _, [] => false
  | a :: as, b :: bs => a = b && startsChars as bs

/-- Check that the first character list occurs inside the second. -/
def insideChars (n : List Char) : List Char → Bool
  | [] => n.isEmpty
  | c :: t => startsChars n (c :: t) || insideChars n t

/-- Truthiness check used for `'nan' in value.lower()`. -/
def hasNanSub (v : String) : Bool :=
  insideChars ("nan".toList) (v.toList.map Char.toLower)

/-! ### Model of the metadata dictionary -/

/-- Value stored in a metadata dictionary: Python strings, ints, floats. -/
inductive Val where
  | num (x : PFloat)
  | int (n : ℤ)
  | str (s : String)
  deriving DecidableEq, Repr

/-- Metadata dictionary: an insertion-ordered association list. -/
def Attr := List (String × Val)

instance : DecidableEq Attr := by
  unfold Attr
  infer_instance

/-- First value bound to a key, as Python `dict.get`. -/
def aget (k : String) : Attr → Option Val
  | [] => none
  | kv :: t => if kv.1 = k then some kv.2 else aget k t

/-- Key membership, as Python `in`. -/
def ahas (k : String) (a : Attr) : Bool :=
  (aget k a).isSome

/-- Model of `d[k] = v`: replace the binding in place or append it. -/
def aset (a : Attr) (k : String) (v : Val) : Attr :=
  match a with
  | [] => [(k, v)]
  | kv :: t => if kv.1 = k then (k, v) :: t else kv :: aset t k v

/-- Remove the binding of a key (helper for `pop`). -/
def aerase (k : String) : Attr → Attr
  | [] => []
  | kv :: t => if kv.1 = k then t else kv :: aerase k t

/-- Model of `d.pop(k)` without a default: `KeyError` when absent. -/
def apop (a : Attr) (k : String) : Except String Attr :=
  if ahas k a then .ok (aerase k a) else .error "KeyError"

/-- Model of `try: a.pop(k1); a.pop(k2) except: pass`. -/
def apopPair (a : Attr) (k1 k2 : String) : Attr :=
  match apop a k1 with
  | .error _ => a
  | .ok a1 =>
    match apop a1 k2 with
    | .error _ => a1
    | .ok a2 => a2

/-- Model of `d[k]`: `KeyError` when the key is absent. -/
def agetE (a : Attr) (k : String) : Except String Val :=
  match aget k a with
  | some v => .ok v
  | none => .error ("KeyError: " ++ k)

/-- Model of Python `int()` applied to a metadata value. -/
def valToInt : Val → Except String ℤ
  | .int n => .ok n
  | .num x => x.toInt
  | .str s =>
    match pyInt? s with
    | some n => .ok n
    | none => .error "ValueError: invalid literal for int"

/-- Model of Python `float()` applied to a metadata value. -/
def valToFloat : Val → Except String PFloat
  | .int n => .ok (.val (n : ℚ))
  | .num x => .ok x
  | .str s =>
    match pyFloat? s with
    | some x => .ok x
    | none => .error "ValueError: could not convert string to float"

/-- Fetch a key of the dictionary and convert it with `int()`. -/
def agetInt (a : Attr) (k : String) : Except String ℤ :=
  agetE a k >>= valToInt

/-! ### Options records -/

/-- Result of `parser.parse_args`: one field per `add_argument` call of
`create_parser`, before the fix-ups done by `cmd_line_parse`. -/
structure ParsedArgs where
  file : List String
  lookupFile : Option String
  templateFile : Option String
  SNWE : Option (List PFloat)
  latStep : Option PFloat
  lonStep : Option PFloat
  interpMethod : String
  fillValue : PFloat
  outfile : Option (List String)
  deriving DecidableEq, Repr

/-- The namespace returned by `cmd_line_parse`: the parsed arguments after
file-list/lookup-file resolution plus the derived `laloStep` attribute. -/
structure Inps where
  file : List String
  lookupFile : Option String
  templateFile : Option String
  SNWE : Option (List PFloat)
  latStep : Option PFloat
  lonStep : Option PFloat
  interpMethod : String
  fillValue : PFloat
  outfile : Option (List String)
  laloStep : Option (PFloat × PFloat)
  deriving DecidableEq, Repr

/-- Truthiness of an optional string: `None` and the empty string are falsy. -/
def optStrFalsy : Option String → Bool
  | none => true
  | some s => s = ""

/-- Python `[latStep, lonStep]` turned into `None` when either entry is
`None` (the `if None in inps.laloStep` fix-up). -/
def mkLaloStep : Option PFloat → Option PFloat → Option (PFloat × PFloat)
  | some a, some b => some (a, b)
  | _, _ => none

/-- Embedding of `cmd_line_parse` after `parser.parse_args`: the external
resolvers `ut.get_file_list` and `ut.get_lookup_file` are oracles.
`sys.exit(msg)` becomes `Except.error msg`. -/
def cmd_line_parse (getFileList : List String → List String)
    (getLookupFile : Option String → Option String)
    (args : ParsedArgs) : Except String Inps :=
  let files := getFileList args.file
  if files.isEmpty then .error "ERROR: no input file found!"
  else
    let lk := getLookupFile args.lookupFile
    if optStrFalsy lk then .error "ERROR: No lookup table found! Can not geocode without it."
    else
      -- `inps.SNWE = tuple(inps.SNWE)` is the identity on the model's lists
      .ok { file := files, lookupFile := lk, templateFile := args.templateFile,
            SNWE := args.SNWE, latStep := args.latStep, lonStep := args.lonStep,
            interpMethod := args.interpMethod, fillValue := args.fillValue,
            outfile := args.outfile,
            laloStep := mkLaloStep args.latStep args.lonStep }

/-! ### Template merging (`read_template2inps`) -/

/-- Template contents after `readfile.read_template` and
`ut.check_template_auto_value` (both external): key/value strings. -/
def Template := List (String × String)

/-- Lookup in a template. -/
def tget (k : String) : Template → Option String
  | [] => none
  | kv :: t => if kv.1 = k then some kv.2 else tget k t

/-- Attribute names of the `inps` namespace, in insertion order; this is
what `list(inps_dict.keys())` iterates over. -/
def inpsKeys : List String :=
  ["file", "lookupFile", "templateFile", "SNWE", "latStep", "lonStep",
   "interpMethod", "fillValue", "outfile", "laloStep"]

/-- Coercion applied to a template `SNWE` value:
`tuple([float(i) for i in value.split(',')])`. -/
def coerceSNWE (v : String) : Except String (List PFloat) :=
  match (pySplitComma v).mapM pyFloat? with
  | some fs => .ok fs
  | none => .error "ValueError: could not convert string to float"

/-- Coercion applied to a template `latStep`/`lonStep` value: `float(value)`. -/
def coerceFloat (v : String) : Except String PFloat :=
  match pyFloat? v with
  | some f => .ok f
  | none => .error "ValueError: could not convert string to float"

/-- Coercion applied to a template `fillValue` value: `np.nan` when the
lowercased string contains `nan`, `float(value)` otherwise. -/
def coerceFill (v : String) : Except String PFloat :=
  if hasNanSub v then .ok .nan else coerceFloat v

/-- Body of the `for key in key_list` loop of `read_template2inps` for one
key.  A key whose template entry is absent is skipped (this fuses the
`key_list` filter with the loop; see `read_template2inps`), a falsy value is
skipped, and a key that matches none of the `if`/`elif` branches is left
unchanged. -/
def applyTemplateKey (t : Template) (i : Inps) (key : String) : Except String Inps :=
  match tget ("pysar.geocode." ++ key) t with
  | none => .ok i
  | some value =>
    if value = "" then .ok i
    else if key = "SNWE" then
      (coerceSNWE value).map (fun fs => { i with SNWE := some fs })
    else if key = "latStep" then
      (coerceFloat value).map (fun f => { i with latStep := some f })
    else if key = "lonStep" then
      (coerceFloat value).map (fun f => { i with lonStep := some f })
    else if key = "interpMethod" then
      .ok { i with interpMethod := value }
    else if key = "fillValue" then
      (coerceFill value).map (fun f => { i with fillValue := f })
    else .ok i

/-- The `inps.laloStep = [inps.latStep, inps.lonStep]` recomputation done at
the end of `read_template2inps`. -/
def laloFix (i : Inps) : Inps :=
  { i with laloStep := mkLaloStep i.latStep i.lonStep }

/-- Embedding of `read_template2inps` given the already-read template: the
keys of `vars(inps)` whose prefixed name occurs in the template are visited
in order, each coercion may raise, and `laloStep` is recomputed at the end.
The `print` call and the `if not inps` re-parse (never taken from `main`,
which always passes `inps`) are dropped. -/
def read_template2inps (t : Template) (inps : Inps) : Except String Inps :=
  ((inpsKeys.filter (fun k => (tget ("pysar.geocode." ++ k) t).isSome)).foldlM
     (applyTemplateKey t) inps).map laloFix

/-! ### Metadata update (`update_attribute`) -/

/-- The fields of `inps` that `update_attribute` reads, at the point of the
per-file loop of `main`: `SNWE` has been replaced by the tuple returned from
`get_geometry_definition` and `outShape` set from the resampled data. -/
structure RunInps where
  lookupFile : Option String
  SNWE : List PFloat
  interpMethod : String
  fillValue : PFloat
  outShape : List ℕ
  deriving DecidableEq, Repr

/-- Oracle signature for `ut.radar2glob` restricted to the first two returned
components: arguments are `REF_Y`, `REF_X`, the lookup file and the input
metadata; the result is the (possibly NaN) latitude/longitude pair. -/
def R2G := ℤ → ℤ → Option String → Attr → PFloat × PFloat

/-- Model of Python sequence indexing with `IndexError`. -/
def pyIndex (l : List PFloat) (n : ℕ) : Except String PFloat :=
  match l.drop n with
  | [] => .error "IndexError: tuple index out of range"
  | x :: _ => .ok x

/-- Result of `update_attribute`: the new metadata, plus whether the
`warnings.warn` call for an out-of-coverage reference pixel fired. -/
structure UARes where
  atr : Attr
  warned : Bool
  deriving DecidableEq

/-- Embedding of lines 139-164 of `update_attribute` (the block under the
`# Reference point from y/x to lat/lon` comment): `atr` is the metadata
after the grid fields were set, `atr_in` the untouched input metadata that
is passed on to `ut.radar2glob`. -/
def update_ref_point (rg : R2G) (lookupFile : Option String)
    (atr_in atr : Attr) : Except String UARes := do
  if ahas "REF_Y" atr then do
    let ry ← agetInt atr "REF_Y"
    let rx ← agetInt atr "REF_X"
    let rll := rg ry rx lookupFile atr_in
    let refLat := rll.1
    let refLon := rll.2
    if ¬ refLat.isNan ∧ ¬ refLon.isNan then do
      let yf ← valToFloat (← agetE atr "Y_FIRST")
      let ys ← valToFloat (← agetE atr "Y_STEP")
      let refYf ← PFloat.div (refLat.sub yf) ys
      let refY ← (PFloat.rint refYf).toInt
      let xf ← valToFloat (← agetE atr "X_FIRST")
      let xs ← valToFloat (← agetE atr "X_STEP")
      let refXf ← PFloat.div (refLon.sub xf) xs
      let refX ← (PFloat.rint refXf).toInt
      let atr := aset atr "REF_LAT" (.str refLat.toStr)
      let atr := aset atr "REF_LON" (.str refLon.toStr)
      let atr := aset atr "REF_Y" (.str (toString refY))
      let atr := aset atr "REF_X" (.str (toString refX))
      return { atr := atr, warned := false }
    else do
      -- warnings.warn("original reference pixel is out of ... coverage.")
      let atr := apopPair atr "REF_Y" "REF_X"
      let atr := apopPair atr "REF_LAT" "REF_LON"
      return { atr := atr, warned := true }
  else
    return { atr := atr, warned := false }

/-- Embedding of `update_attribute`: `dict(atr_in)` copying is implicit in
the functional model, Python exceptions (`ValueError` from tuple unpacking,
`ZeroDivisionError`, `KeyError`, failed `int()`/`float()` conversions)
become `Except.error`. -/
def update_attribute (rg : R2G) (atr_in : Attr) (inps : RunInps) :
    Except String UARes := do
  let lw ← (match inps.outShape.reverse with
    | w :: l :: _ => Except.ok (l, w)
    | _ => Except.error "ValueError: not enough values to unpack")
  let length := lw.1
  let width := lw.2
  let atr := aset atr_in "LENGTH" (.int length)
  let atr := aset atr "WIDTH" (.int width)
  let n1 ← pyIndex inps.SNWE 1
  let atr := aset atr "Y_FIRST" (.num n1)
  let w2 ← pyIndex inps.SNWE 2
  let atr := aset atr "X_FIRST" (.num w2)
  let s0 ← pyIndex inps.SNWE 0
  let ystep ← PFloat.div (s0.sub n1) (.val (length : ℚ))
  let atr := aset atr "Y_STEP" (.num ystep)
  let e3 ← pyIndex inps.SNWE 3
  let xstep ← PFloat.div (e3.sub w2) (.val (width : ℚ))
  let atr := aset atr "X_STEP" (.num xstep)
  let atr := aset atr "Y_UNIT" (.str "degrees")
  let atr := aset atr "X_UNIT" (.str "degrees")
  update_ref_point rg inps.lookupFile atr_in atr

/-! ### POSIX path helpers (`os.path`) -/

/-- Split a character list at the last slash: the first component keeps the
slash, the second is what follows it; `none` when there is no slash. -/
def rsplitSlash : List Char → Option (List Char × List Char)
  | [] => none
  | c :: t =>
    match rsplitSlash t with
    | some p => some (c :: p.1, p.2)
    | none => if c = '/' then some ([c], t) else none

/-- Model of `os.path.basename` for POSIX paths. -/
def pyBasename (p : String) : String :=
  match rsplitSlash p.toList with
  | some pr => String.mk pr.2
  | none => p

/-- Drop the trailing slashes of a character list. -/
def dropTrailSlashes (cs : List Char) : List Char :=
  ((cs.reverse.dropWhile (fun c => c = '/')).reverse)

/-- Model of `os.path.dirname` for POSIX paths: everything up to the last
slash, with trailing slashes stripped unless the head is all slashes. -/
def pyDirname (p : String) : String :=
  match rsplitSlash p.toList with
  | none => ""
  | some pr =>
    if pr.1.all (fun c => c = '/') then String.mk pr.1
    else String.mk (dropTrailSlashes pr.1)

/-- Model of `os.path.join` for POSIX paths and two components. -/
def pyJoin (a b : String) : String :=
  if b.toList.head? = some '/' then b
  else if a = "" ∨ a.toList.getLast? = some '/' then a ++ b
  else a ++ "/" ++ b

/-- Default output path of `geocode_file`:
`os.path.join(os.path.dirname(infile), 'geo_' + os.path.basename(infile))`. -/
def geoPath (infile : String) : String :=
  pyJoin (pyDirname infile) ("geo_" ++ pyBasename infile)

/-! ### Orchestration (`geocode_file` and `main`) as a trace -/

/-- Observable events of one invocation: construction of the `resample`
object (with its keyword arguments), the geometry-definition call, and the
per-file read / resample / metadata-update / write calls. -/
inductive Ev where
  | construct (lookupFile : Option String) (dataFile : String)
      (snwe : Option (List PFloat)) (laloStep : Option PFloat)
  | getGeometry
  | readData (f : String)
  | resampleData (f : String) (interp : String) (fill : PFloat)
  | updateMeta (f : String)
  | writeData (outfile : String) (infile : String)
  deriving DecidableEq, Repr

/-- Oracles for the external collaborators.  `readfile.read` is reduced to
the data shape plus metadata, `res_obj.resample` to the output shape (the
interpolation method and fill value are recorded in the trace), and
`res_obj.get_geometry_definition` to the returned `SNWE` tuple — the opaque
`src_def`/`dest_def` objects only flow back into `res_obj` and are dropped. -/
structure Oracles where
  getFileList : List String → List String
  getLookupFile : Option String → Option String
  readTemplate : String → Template
  readData : String → List ℕ × Attr
  resampleShape : List ℕ → String → PFloat → List ℕ
  geometrySNWE : Option String → String → Option (List PFloat) → Option PFloat → List PFloat
  radar2glob : R2G

/-- Shape effect of `np.moveaxis(data, 0, -1)` applied to 3-D data. -/
def moveFirstLast (s : List ℕ) : List ℕ :=
  if s.length = 3 then s.drop 1 ++ s.take 1 else s

/-- Shape effect of `np.moveaxis(data, -1, 0)` applied to 3-D data. -/
def moveLastFirst (s : List ℕ) : List ℕ :=
  if s.length = 3 then s.drop 2 ++ s.take 2 else s

/-- Embedding of `geocode_file`: returns the event trace of the call and the
output file name.  The data arrays themselves are abstracted to shapes. -/
def geocode_file (O : Oracles) (inps : RunInps) (infile : String)
    (outfile : Option String) : Except String (List Ev × String) := do
  let ra := O.readData infile
  let dshape := moveFirstLast ra.1
  let gshape := moveLastFirst (O.resampleShape dshape inps.interpMethod inps.fillValue)
  let _ua ← update_attribute O.radar2glob ra.2 { inps with outShape := gshape }
  let out := match outfile with
    | none => geoPath infile
    | some o => if o = "" then geoPath infile else o
  Except.ok ([Ev.readData infile,
              Ev.resampleData infile inps.interpMethod inps.fillValue,
              Ev.updateMeta infile,
              Ev.writeData out infile], out)

/-- First phase of `main`: `cmd_line_parse` followed by the template merge
when `inps.templateFile` is truthy. -/
def mergeInps (O : Oracles) (args : ParsedArgs) : Except String Inps := do
  let i ← cmd_line_parse O.getFileList O.getLookupFile args
  match i.templateFile with
  | some tf => if tf = "" then Except.ok i else read_template2inps (O.readTemplate tf) i
  | none => Except.ok i

/-- Second phase of `main`: construct the resampler from the first input
file, compute the geometry definition, then loop over the input files. -/
def mainFrom (O : Oracles) (inps : Inps) : Except String (List Ev) := do
  let f0 ← (match inps.file with
    | [] => Except.error "IndexError: list index out of range"
    | f :: _ => Except.ok f)
  let snwe2 := O.geometrySNWE inps.lookupFile f0 inps.SNWE inps.latStep
  let rinps : RunInps :=
    { lookupFile := inps.lookupFile, SNWE := snwe2,
      interpMethod := inps.interpMethod, fillValue := inps.fillValue,
      outShape := [] }
  let evs ← inps.file.foldlM (fun acc f => do
      let r ← geocode_file O rinps f none
      Except.ok (acc ++ r.1)) ([] : List Ev)
  Except.ok (Ev.construct inps.lookupFile f0 inps.SNWE inps.latStep ::
             Ev.getGeometry :: evs)

/-- Embedding of `main`: parse and merge, then run the pipeline. -/
def main (O : Oracles) (args : ParsedArgs) : Except String (List Ev) :=
  mergeInps O args >>= mainFrom O

/-- The four-event block `geocode_file` contributes for one input file when
it succeeds and no explicit output name is passed. -/
def fileEvents (interp : String) (fill : PFloat) (f : String) : List Ev :=
  [Ev.readData f, Ev.resampleData f interp fill, Ev.updateMeta f,
   Ev.writeData (geoPath f) f]

/-! ### Auxiliary definitions used by the statements and proofs -/

instance instDecEqExcept {e a : Type} [DecidableEq e] [DecidableEq a] :
    DecidableEq (Except e a)
  | .ok x, .ok y =>
    decidable_of_iff (x = y) ⟨fun h => h ▸ rfl, fun h => Except.ok.inj h⟩
  | .error x, .error y =>
    decidable_of_iff (x = y) ⟨fun h => h ▸ rfl, fun h => Except.error.inj h⟩
  | .ok _, .error _ => isFalse (fun h => Except.noConfusion h)
  | .error _, .ok _ => isFalse (fun h => Except.noConfusion h)

/-- A metadata dictionary has pairwise-distinct keys, as a Python `dict`
always does. -/
def NodupKeys (a : Attr) : Prop :=
  (a.map Prod.fst).Nodup

instance (a : Attr) : Decidable (NodupKeys a) := by
  unfold NodupKeys
  infer_instance

/-- Erase the `inps` attributes that `main` never reads after parsing
(`lonStep` is not forwarded to the resampler, `laloStep` is never read, and
the `-o` value `outfile` is never passed on): two merged option records with
the same image under this map drive the whole run identically. -/
def stripLonOut (i : Inps) : Inps :=
  { i with lonStep := none, laloStep := none, outfile := none }

/-! ### Concrete fixtures used by the witnesses and counterexamples -/

/-- Fixture: options reaching `update_attribute`, with a 4×8 output grid
over the box S=0, N=2, W=10, E=14. -/
def rinps0 : RunInps :=
  { lookupFile := none, SNWE := [.val 0, .val 2, .val 10, .val 14],
    interpMethod := "nearest", fillValue := .nan, outShape := [4, 8] }

/-- Fixture: metadata with a complete reference point. -/
def atrRef : Attr :=
  [("REF_Y", .str "2"), ("REF_X", .str "3"), ("FILE_TYPE", .str "velocity")]

/-- Fixture: metadata with `REF_Y` but no `REF_X`. -/
def atrNoRefX : Attr := [("REF_Y", Val.str "2")]

/-- Fixture: `radar2glob` oracle returning an in-coverage point. -/
def rgOk : R2G := fun _ _ _ _ => (.val 1, .val 12)

/-- Fixture: `radar2glob` oracle returning NaN (out of coverage). -/
def rgNan : R2G := fun _ _ _ _ => (.nan, .nan)

/-- Fixture: external-collaborator oracles for a two-file run. -/
def or0 : Oracles :=
  { getFileList := fun l => l,
    getLookupFile := fun _ => some "geometryRadar.h5",
    readTemplate := fun _ => [],
    readData := fun _ => ([2, 3], [("UNIT", Val.str "m")]),
    resampleShape := fun s _ _ => s,
    geometrySNWE := fun _ _ _ _ => [.val 0, .val 2, .val 10, .val 14],
    radar2glob := fun _ _ _ _ => (.val 1, .val 12) }

/-- Fixture: parsed command-line arguments for a two-file run. -/
def args0 : ParsedArgs :=
  { file := ["velocity.h5", "t.h5"], lookupFile := none, templateFile := none,
    SNWE := none, latStep := none, lonStep := none, interpMethod := "nearest",
    fillValue := .nan, outfile := none }

/-- Fixture: parsed arguments whose resolved file list is empty. -/
def argsNoFile : ParsedArgs :=
  { file := [], lookupFile := none, templateFile := none, SNWE := none,
    latStep := none, lonStep := none, interpMethod := "nearest",
    fillValue := .nan, outfile := none }

/-- Fixture: a parsed-options record as produced by `cmd_line_parse`. -/
def inps0 : Inps :=
  { file := ["velocity.h5"], lookupFile := some "geometryRadar.h5",
    templateFile := none, SNWE := none, latStep := none, lonStep := none,
    interpMethod := "nearest", fillValue := .nan, outfile := none,
    laloStep := none }

/-- Fixture: the options record produced by `mergeInps or0 args0`. -/
def inpsMerged0 : Inps :=
  { file := ["velocity.h5", "t.h5"], lookupFile := some "geometryRadar.h5",
    templateFile := none, SNWE := none, latStep := none, lonStep := none,
    interpMethod := "nearest", fillValue := .nan, outfile := none,
    laloStep := none }

/-- Fixture: the event trace of `main or0 args0`. -/
def evs0 : List Ev :=
  [Ev.construct (some "geometryRadar.h5") "velocity.h5" none none,
   Ev.getGeometry,
   Ev.readData "velocity.h5",
   Ev.resampleData "velocity.h5" "nearest" .nan,
   Ev.updateMeta "velocity.h5",
   Ev.writeData "geo_velocity.h5" "velocity.h5",
   Ev.readData "t.h5",
   Ev.resampleData "t.h5" "nearest" .nan,
   Ev.updateMeta "t.h5",
   Ev.writeData "geo_t.h5" "t.h5"]

/-- Fixture: a well-formed template. -/
def tmplGood : Template :=
  [("pysar.geocode.SNWE", "-1.2,0.5,-92,-91"),
   ("pysar.geocode.latStep", "0.001"),
   ("pysar.geocode.fillValue", "NaN")]

/-- Fixture: a template with an unparsable `SNWE` value. -/
def tmplBad : Template := [("pysar.geocode.SNWE", "abc")]

/-- Fixture: `tmplGood` plus a bare key and an inert prefixed key. -/
def tmplNoisy : Template :=
  [("pysar.geocode", "yes"), ("pysar.geocode.file", "x.h5"),
   ("pysar.geocode.SNWE", "-1.2,0.5,-92,-91"),
   ("pysar.geocode.latStep", "0.001"),
   ("pysar.geocode.fillValue", "NaN")]

/-- Fixture: a template containing only the bare `pysar.geocode` key. -/
def tmplBare : Template := [("pysar.geocode", "yes")]

/-! ### Helper lemmas: `Except`, association lists, rounding -/

theorem exbind_ok {α β : Type} (a : α) (f : α → Except String β) :
    (Except.ok a : Except String α) >>= f = f a := rfl

theorem exbind_err {α β : Type} (e : String) (f : α → Except String β) :
    (Except.error e : Except String α) >>= f = Except.error e := rfl

theorem exmap_ok {α β : Type} (a : α) (f : α → β) :
    (Except.ok a : Except String α).map f = Except.ok (f a) := rfl

theorem exmap_err {α β : Type} (e : String) (f : α → β) :
    (Except.error e : Except String α).map f = Except.error e := rfl

theorem aget_aset_self (a : Attr) (k : String) (v : Val) :
    aget k (aset a k v) = some v := by
  induction a with
  | nil => simp [aget, aset]
  | cons kv t ih =>
    by_cases h : kv.1 = k
    · simp [aset, h, aget]
    · simp [aset, h, aget, ih]

theorem aget_aset_ne {k k' : String} (h : k' ≠ k) (a : Attr) (v : Val) :
    aget k (aset a k' v) = aget k a := by
  induction a with
  | nil => simp [aget, aset, h]
  | cons kv t ih =>
    by_cases hk : kv.1 = k'
    · simp [aset, hk, aget, h]
    · simp [aset, hk, aget, ih]

theorem aget_none_of_not_mem {k : String} {a : Attr}
    (h : k ∉ a.map Prod.fst) : aget k a = none := by
  induction a with
  | nil => rfl
  | cons kv t ih =>
    simp only [List.map_cons, List.mem_cons] at h
    push_neg at h
    have h1 : kv.1 ≠ k := fun hh => h.1 hh.symm
    simp [aget, h1, ih h.2]

theorem aget_aerase_ne {k k' : String} (h : k' ≠ k) (a : Attr) :
    aget k (aerase k' a) = aget k a := by
  induction a with
  | nil => rfl
  | cons kv t ih =>
    by_cases hk : kv.1 = k'
    · simp [aerase, hk, aget, h]
    · simp [aerase, hk, aget, ih]

theorem aerase_sublist (k : String) (a : Attr) : (aerase k a).Sublist a := by
  induction a with
  | nil => simp [aerase]
  | cons kv t ih =>
    by_cases hk : kv.1 = k
    · simp [aerase, hk, List.sublist_cons_self kv t]
    · simpa [aerase, hk] using ih.cons₂ kv

theorem nodupKeys_aerase {a : Attr} (k : String) (h : NodupKeys a) :
    NodupKeys (aerase k a) := by
  exact h.sublist ((aerase_sublist k a).map Prod.fst)

theorem aget_aerase_self (a : Attr) (k : String) (h : NodupKeys a) :
    aget k (aerase k a) = none := by
  induction a with
  | nil => rfl
  | cons kv t ih =>
    unfold NodupKeys at h
    simp only [List.map_cons, List.nodup_cons] at h
    by_cases hk : kv.1 = k
    · simp only [aerase, if_pos hk]
      exact aget_none_of_not_mem (hk ▸ h.1)
    · simp [aerase, hk, aget, ih h.2]

theorem mem_keys_aset {x k : String} {v : Val} {a : Attr}
    (h : x ∈ (aset a k v).map Prod.fst) : x ∈ a.map Prod.fst ∨ x = k := by
  induction a with
  | nil => simpa [aset] using h
  | cons kv t ih =>
    by_cases hk : kv.1 = k
    · simp only [aset, if_pos hk, List.map_cons, List.mem_cons] at h
      rcases h with h | h
      · exact .inr h
      · exact .inl (by simp [h])
    · simp only [aset, if_neg hk, List.map_cons, List.mem_cons] at h
      rcases h with h | h
      · exact .inl (by simp [h])
      · rcases ih h with h' | h'
        · exact .inl (by simp [h'])
        · exact .inr h'

theorem nodupKeys_aset {a : Attr} (k : String) (v : Val) (h : NodupKeys a) :
    NodupKeys (aset a k v) := by
  induction a with
  | nil => simp [aset, NodupKeys]
  | cons kv t ih =>
    unfold NodupKeys at h ⊢
    simp only [List.map_cons, List.nodup_cons] at h
    by_cases hk : kv.1 = k
    · simp only [aset, if_pos hk, List.map_cons, List.nodup_cons]
      exact ⟨hk ▸ h.1, h.2⟩
    · simp only [aset, if_neg hk, List.map_cons, List.nodup_cons]
      refine ⟨fun hm => ?_, ih h.2⟩
      rcases mem_keys_aset hm with h' | h'
      · exact h.1 h'
      · exact hk h'

theorem aget_apopPair_ne {k k1 k2 : String} (h1 : k ≠ k1) (h2 : k ≠ k2)
    (a : Attr) : aget k (apopPair a k1 k2) = aget k a := by
  unfold apopPair apop
  by_cases m1 : ahas k1 a
  · by_cases m2 : ahas k2 (aerase k1 a)
    · simp [m1, m2, aget_aerase_ne (Ne.symm h2), aget_aerase_ne (Ne.symm h1)]
    · simp [m1, m2, aget_aerase_ne (Ne.symm h1)]
  · simp [m1]

theorem nodupKeys_apopPair {a : Attr} (k1 k2 : String) (h : NodupKeys a) :
    NodupKeys (apopPair a k1 k2) := by
  unfold apopPair apop
  by_cases m1 : ahas k1 a
  · by_cases m2 : ahas k2 (aerase k1 a)
    · simp only [m1, if_true, m2]
      exact nodupKeys_aerase _ (nodupKeys_aerase _ h)
    · simp only [m1, if_true, m2]
      exact nodupKeys_aerase _ h
  · simp only [m1]
    simpa [m1] using h

theorem apopPair_fst {a : Attr} {k1 k2 : String} (h : NodupKeys a)
    (hne : k1 ≠ k2) : aget k1 (apopPair a k1 k2) = none := by
  unfold apopPair apop
  by_cases m1 : ahas k1 a
  · by_cases m2 : ahas k2 (aerase k1 a)
    · simp [m1, m2, aget_aerase_ne (Ne.symm hne), aget_aerase_self _ _ h]
    · simp [m1, m2, aget_aerase_self _ _ h]
  · have : aget k1 a = none := by
      unfold ahas at m1
      simpa using m1
    simp [m1, this]

theorem apopPair_snd {a : Attr} {k1 k2 : String} (h : NodupKeys a) :
    aget k2 (apopPair a k1 k2) =
      (if (aget k1 a).isSome then none else aget k2 a) := by
  unfold apopPair apop
  by_cases m1 : ahas k1 a
  · have h1 : NodupKeys (aerase k1 a) := nodupKeys_aerase _ h
    have hs : (aget k1 a).isSome = true := by simpa [ahas] using m1
    by_cases m2 : ahas k2 (aerase k1 a)
    · simp [m1, m2, aget_aerase_self _ _ h1, hs]
    · have h2 : aget k2 (aerase k1 a) = none := by
        unfold ahas at m2
        simpa using m2
      simp [m1, m2, h2, hs]
  · have hs : (aget k1 a).isSome = false := by simpa [ahas] using m1
    simp [m1, hs]

/-! ### Helper lemmas: rounding and float arithmetic -/

theorem ratFloor_intCast (n : ℤ) : ((n : ℚ)).floor = n := by
  rw [Rat.floor_def']
  simp

theorem ratTrunc_intCast (n : ℤ) : ratTrunc ((n : ℚ)) = n := by
  unfold ratTrunc
  by_cases h : (0:ℚ) ≤ (n:ℚ)
  · rw [if_pos h, ratFloor_intCast]
  · rw [if_neg h]
    have e : (-(n:ℚ)) = ((-n : ℤ) : ℚ) := by push_cast; ring
    rw [e, ratFloor_intCast]
    ring

theorem pf_rint_toInt (q : ℚ) : ((PFloat.val q).rint).toInt = .ok (rintQ q) := by
  simp [PFloat.rint, PFloat.toInt, ratTrunc_intCast]

theorem pf_div_val {a b : ℚ} (h : b ≠ 0) :
    PFloat.div (.val a) (.val b) = .ok (.val (a / b)) := by
  simp [PFloat.div, h]

/-! ### Helper lemmas: the reference-point block -/

theorem update_ref_point_frame {rg : R2G} {lk : Option String} {ain b : Attr}
    {res : UARes} (hok : update_ref_point rg lk ain b = .ok res)
    {k : String} (h1 : k ≠ "REF_LAT") (h2 : k ≠ "REF_LON")
    (h3 : k ≠ "REF_Y") (h4 : k ≠ "REF_X") :
    aget k res.atr = aget k b := by
  unfold update_ref_point at hok
  by_cases hc : ahas "REF_Y" b
  · simp only [hc, if_true, Bind.bind, Except.bind, pure, Except.pure] at hok
    split at hok
    · cases hok
    · split at hok
      · cases hok
      · split at hok
        · repeat' split at hok
          all_goals cases hok
          all_goals
            simp [aget_aset_ne (Ne.symm h1), aget_aset_ne (Ne.symm h2),
                  aget_aset_ne (Ne.symm h3), aget_aset_ne (Ne.symm h4)]
        · cases hok
          simp [aget_apopPair_ne h3 h4, aget_apopPair_ne h1 h2]
  · simp only [hc, if_false, Bind.bind, Except.bind, pure, Except.pure] at hok
    cases hok
    rfl

theorem pyIndex_idx0 (a b c d : PFloat) : pyIndex [a, b, c, d] 0 = .ok a := rfl

theorem pyIndex_idx1 (a b c d : PFloat) : pyIndex [a, b, c, d] 1 = .ok b := rfl

theorem pyIndex_idx2 (a b c d : PFloat) : pyIndex [a, b, c, d] 2 = .ok c := rfl

theorem pyIndex_idx3 (a b c d : PFloat) : pyIndex [a, b, c, d] 3 = .ok d := rfl

/-! ### Claims C2 and C10: grid metadata and frame condition -/

/-- C2: for every input metadata mapping and every options record whose
bounding box is `SNWE = (S, N, W, E)` and whose output shape has last two
dimensions `(length, width)`, whenever `update_attribute` returns, the
returned metadata has `LENGTH = length`, `WIDTH = width`, `Y_FIRST = N`,
`X_FIRST = W`, `Y_STEP = (S - N) / length` and `X_STEP = (E - W) / width`. -/
theorem claim_C2 {rg : R2G} {atr : Attr} {inps : RunInps}
    {rest : List ℕ} {l w : ℕ} {S N We E : ℚ} {res : UARes}
    (hsh : inps.outShape.reverse = w :: l :: rest)
    (hsnwe : inps.SNWE = [.val S, .val N, .val We, .val E])
    (hok : update_attribute rg atr inps = .ok res) :
    aget "LENGTH" res.atr = some (.int l) ∧
    aget "WIDTH" res.atr = some (.int w) ∧
    aget "Y_FIRST" res.atr = some (.num (.val N)) ∧
    aget "X_FIRST" res.atr = some (.num (.val We)) ∧
    aget "Y_STEP" res.atr = some (.num (.val ((S - N) / (l : ℚ)))) ∧
    aget "X_STEP" res.atr = some (.num (.val ((E - We) / (w : ℚ)))) := by
  unfold update_attribute at hok
  rw [hsh, hsnwe] at hok
  by_cases hl : (l : ℚ) = 0
  · simp [Bind.bind, Except.bind, pyIndex_idx0, pyIndex_idx1, pyIndex_idx2,
          pyIndex_idx3, PFloat.sub, PFloat.div, hl] at hok
  · by_cases hw : (w : ℚ) = 0
    · simp [Bind.bind, Except.bind, pyIndex_idx0, pyIndex_idx1, pyIndex_idx2,
            pyIndex_idx3, PFloat.sub, PFloat.div, hl, hw] at hok
    · simp only [Bind.bind, Except.bind, pyIndex_idx0, pyIndex_idx1,
                  pyIndex_idx2, pyIndex_idx3, PFloat.sub, PFloat.div,
                  if_neg hl, if_neg hw] at hok
      refine ⟨?_, ?_, ?_, ?_, ?_, ?_⟩ <;>
        rw [update_ref_point_frame hok (by decide) (by decide) (by decide)
              (by decide)] <;>
        simp [aget_aset_self, aget_aset_ne]

/-- Witness for C2 at a concrete input: a 4×8 grid over S=0, N=2, W=10,
E=14 yields the stated grid metadata. -/
theorem claim_C2_witness :
    ∃ res, update_attribute rgNan ([] : Attr) rinps0 = Except.ok res ∧
      aget "LENGTH" res.atr = some (.int 4) ∧
      aget "Y_STEP" res.atr =
        some (.num (.val ((0 - 2 : ℚ) / ((4 : ℕ) : ℚ)))) ∧
      aget "X_STEP" res.atr =
        some (.num (.val ((14 - 10 : ℚ) / ((8 : ℕ) : ℚ)))) := by
  obtain ⟨res, hres⟩ : ∃ r, update_attribute rgNan ([] : Attr) rinps0 =
      Except.ok r := ⟨_, rfl⟩
  have c := @claim_C2 rgNan ([] : Attr) rinps0 ([] : List ℕ) 4 8 0 2 10 14
    res (by rfl) (by rfl) hres
  exact ⟨res, hres, c.1, c.2.2.2.2.1, c.2.2.2.2.2⟩

/-- C10: `update_attribute` operates on a copy of its argument (in the
functional embedding the argument is untouched by construction), and every
key other than the twelve grid/reference keys it manages keeps its original
value in the returned metadata. -/
theorem claim_C10 {rg : R2G} {atr : Attr} {inps : RunInps}
    {res : UARes} (hok : update_attribute rg atr inps = .ok res) {k : String}
    (hks : k ∉ (["LENGTH", "WIDTH", "Y_FIRST", "X_FIRST", "Y_STEP", "X_STEP",
                 "Y_UNIT", "X_UNIT", "REF_Y", "REF_X", "REF_LAT", "REF_LON"] :
                List String)) :
    aget k res.atr = aget k atr := by
  simp only [List.mem_cons, List.not_mem_nil, or_false, not_or] at hks
  obtain ⟨n1, n2, n3, n4, n5, n6, n7, n8, n9, n10, n11, n12⟩ := hks
  unfold update_attribute at hok
  simp only [Bind.bind, Except.bind] at hok
  repeat' split at hok
  all_goals try (cases hok)
  rw [update_ref_point_frame hok n11 n12 n9 n10]
  simp [aget_aset_ne (Ne.symm n1), aget_aset_ne (Ne.symm n2),
        aget_aset_ne (Ne.symm n3), aget_aset_ne (Ne.symm n4),
        aget_aset_ne (Ne.symm n5), aget_aset_ne (Ne.symm n6),
        aget_aset_ne (Ne.symm n7), aget_aset_ne (Ne.symm n8)]

/-- Witness for C10 at a concrete input: the `FILE_TYPE` entry survives an
`update_attribute` call that removes the reference point. -/
theorem claim_C10_witness :
    ∃ res, update_attribute rgNan atrRef rinps0 = Except.ok res ∧
      aget "FILE_TYPE" res.atr = aget "FILE_TYPE" atrRef := by
  obtain ⟨res, hres⟩ : ∃ r, update_attribute rgNan atrRef rinps0 =
      Except.ok r := ⟨_, rfl⟩
  exact ⟨res, hres, claim_C10 hres (by decide)⟩

/-! ### Claim C3: reference-point remapping -/

theorem agetInt_parts {B : Attr} {k : String} {n : ℤ}
    (h : agetInt B k = .ok n) :
    ∃ v, agetE B k = .ok v ∧ valToInt v = .ok n := by
  unfold agetInt at h
  cases hY : agetE B k with
  | error e => rw [hY] at h; simp [Bind.bind, Except.bind] at h
  | ok v =>
    rw [hY] at h
    simp only [Bind.bind, Except.bind] at h
    exact ⟨v, rfl, h⟩

theorem agetE_eq_ok {a : Attr} {k : String} {v : Val} (h : aget k a = some v) :
    agetE a k = .ok v := by
  unfold agetE
  rw [h]

theorem agetE_ok_get {a : Attr} {k : String} {v : Val}
    (h : agetE a k = .ok v) : aget k a = some v := by
  unfold agetE at h
  cases hg : aget k a <;> rw [hg] at h <;> simp_all

theorem update_ref_point_set {rg : R2G} {lk : Option String} {ain B : Attr}
    {ry rx : ℤ} {a b yf ys xf xs : ℚ}
    (hhas : ahas "REF_Y" B = true)
    (hry : agetInt B "REF_Y" = .ok ry) (hrx : agetInt B "REF_X" = .ok rx)
    (hrg : rg ry rx lk ain = (.val a, .val b))
    (hyf : agetE B "Y_FIRST" = .ok (.num (.val yf)))
    (hys : agetE B "Y_STEP" = .ok (.num (.val ys))) (hys0 : ys ≠ 0)
    (hxf : agetE B "X_FIRST" = .ok (.num (.val xf)))
    (hxs : agetE B "X_STEP" = .ok (.num (.val xs))) (hxs0 : xs ≠ 0) :
    update_ref_point rg lk ain B =
      .ok ⟨aset (aset (aset (aset B "REF_LAT" (.str (ratStr a)))
              "REF_LON" (.str (ratStr b)))
              "REF_Y" (.str (toString (rintQ ((a - yf) / ys)))))
              "REF_X" (.str (toString (rintQ ((b - xf) / xs)))), false⟩ := by
  obtain ⟨vy, hY, hvy⟩ := agetInt_parts hry
  obtain ⟨vx, hX, hvx⟩ := agetInt_parts hrx
  unfold update_ref_point
  rw [hhas]
  simp only [if_true, Bind.bind, Except.bind, agetInt, hY, hvy, hX, hvx, hrg,
             hyf, hys, hxf, hxs, valToFloat, PFloat.isNan, PFloat.sub,
             pf_div_val hys0, pf_div_val hxs0, pf_rint_toInt, PFloat.toStr,
             pure, Except.pure]
  simp

theorem update_ref_point_warn {rg : R2G} {lk : Option String} {ain B : Attr}
    {ry rx : ℤ}
    (hhas : ahas "REF_Y" B = true)
    (hry : agetInt B "REF_Y" = .ok ry) (hrx : agetInt B "REF_X" = .ok rx)
    (hnan : (rg ry rx lk ain).1.isNan = true ∨ (rg ry rx lk ain).2.isNan = true) :
    update_ref_point rg lk ain B =
      .ok ⟨apopPair (apopPair B "REF_Y" "REF_X") "REF_LAT" "REF_LON", true⟩ := by
  obtain ⟨vy, hY, hvy⟩ := agetInt_parts hry
  obtain ⟨vx, hX, hvx⟩ := agetInt_parts hrx
  unfold update_ref_point
  rw [hhas]
  simp only [if_true, Bind.bind, Except.bind, agetInt, hY, hvy, hX, hvx,
             pure, Except.pure]
  rw [if_neg]
  intro hcon
  rcases hnan with h | h
  · exact absurd h (by simpa using hcon.1)
  · exact absurd h (by simpa using hcon.2)

/-- C3 (amended): for every metadata mapping with pairwise-distinct keys
whose `REF_Y` and `REF_X` entries are both present and `int()`-convertible,
given a well-formed output shape (at least two dimensions, both nonzero) and
a bounding box with `S ≠ N` and `W ≠ E`: when the remapped reference
coordinates are both finite numbers, `update_attribute` sets `REF_LAT`,
`REF_LON` and the new `REF_Y`, `REF_X` obtained by rounding
`(ref_lat - Y_FIRST)/Y_STEP` and `(ref_lon - X_FIRST)/X_STEP` half-to-even;
when either is NaN it warns and removes `REF_Y`, `REF_X` and `REF_LAT`,
but `REF_LON` is removed only when `REF_LAT` was present (the
`try: pop(REF_LAT); pop(REF_LON) except: pass` block aborts before popping
`REF_LON` when `REF_LAT` is absent).  The original claim, which quantified
over every mapping containing `REF_Y`, is refuted by
`claim_C3_counterexample`. -/
theorem claim_C3_amended {rg : R2G} {atr : Attr} {inps : RunInps}
    {rest : List ℕ} {l w : ℕ} {S N We E : ℚ} {ry rx : ℤ}
    (hnd : NodupKeys atr)
    (hsh : inps.outShape.reverse = w :: l :: rest)
    (hl : l ≠ 0) (hw : w ≠ 0)
    (hsnwe : inps.SNWE = [.val S, .val N, .val We, .val E])
    (hSN : S ≠ N) (hWE : We ≠ E)
    (hry : agetInt atr "REF_Y" = .ok ry)
    (hrx : agetInt atr "REF_X" = .ok rx) :
    (∀ a b, rg ry rx inps.lookupFile atr = (.val a, .val b) →
      ∃ res, update_attribute rg atr inps = .ok res ∧ res.warned = false ∧
        aget "REF_LAT" res.atr = some (.str (ratStr a)) ∧
        aget "REF_LON" res.atr = some (.str (ratStr b)) ∧
        aget "REF_Y" res.atr =
          some (.str (toString (rintQ ((a - N) / ((S - N) / (l : ℚ)))))) ∧
        aget "REF_X" res.atr =
          some (.str (toString (rintQ ((b - We) / ((E - We) / (w : ℚ))))))) ∧
    ((rg ry rx inps.lookupFile atr).1.isNan = true ∨
        (rg ry rx inps.lookupFile atr).2.isNan = true →
      ∃ res, update_attribute rg atr inps = .ok res ∧ res.warned = true ∧
        aget "REF_Y" res.atr = none ∧ aget "REF_X" res.atr = none ∧
        aget "REF_LAT" res.atr = none ∧
        aget "REF_LON" res.atr =
          (if (aget "REF_LAT" atr).isSome then none
           else aget "REF_LON" atr)) := by
  have hlq : (l : ℚ) ≠ 0 := Nat.cast_ne_zero.2 hl
  have hwq : (w : ℚ) ≠ 0 := Nat.cast_ne_zero.2 hw
  have hysne : (S - N) / (l : ℚ) ≠ 0 := div_ne_zero (sub_ne_zero.2 hSN) hlq
  have hxsne : (E - We) / (w : ℚ) ≠ 0 :=
    div_ne_zero (sub_ne_zero.2 (Ne.symm hWE)) hwq
  set B := aset (aset (aset (aset (aset (aset (aset (aset atr
      "LENGTH" (Val.int (l : ℤ))) "WIDTH" (Val.int (w : ℤ)))
      "Y_FIRST" (.num (.val N))) "X_FIRST" (.num (.val We)))
      "Y_STEP" (.num (.val ((S - N) / (l : ℚ)))))
      "X_STEP" (.num (.val ((E - We) / (w : ℚ)))))
      "Y_UNIT" (.str "degrees")) "X_UNIT" (.str "degrees") with hB
  have hred : update_attribute rg atr inps =
      update_ref_point rg inps.lookupFile atr B := by
    unfold update_attribute
    rw [hsh, hsnwe]
    simp only [Bind.bind, Except.bind, pyIndex_idx0, pyIndex_idx1,
               pyIndex_idx2, pyIndex_idx3, PFloat.sub, PFloat.div,
               if_neg hlq, if_neg hwq]
  have hgetY : aget "REF_Y" B = aget "REF_Y" atr := by
    rw [hB]; simp [aget_aset_ne]
  have hgetX : aget "REF_X" B = aget "REF_X" atr := by
    rw [hB]; simp [aget_aset_ne]
  have hryB : agetInt B "REF_Y" = .ok ry := by
    unfold agetInt agetE
    rw [hgetY]
    exact hry
  have hrxB : agetInt B "REF_X" = .ok rx := by
    unfold agetInt agetE
    rw [hgetX]
    exact hrx
  obtain ⟨vy, hYe, -⟩ := agetInt_parts hry
  have hgy := agetE_ok_get hYe
  have hhasB : ahas "REF_Y" B = true := by
    unfold ahas
    rw [hgetY, hgy]
    rfl
  have hYF : agetE B "Y_FIRST" = .ok (.num (.val N)) := by
    apply agetE_eq_ok
    rw [hB]
    simp [aget_aset_self, aget_aset_ne]
  have hYS : agetE B "Y_STEP" = .ok (.num (.val ((S - N) / (l : ℚ)))) := by
    apply agetE_eq_ok
    rw [hB]
    simp [aget_aset_self, aget_aset_ne]
  have hXF : agetE B "X_FIRST" = .ok (.num (.val We)) := by
    apply agetE_eq_ok
    rw [hB]
    simp [aget_aset_self, aget_aset_ne]
  have hXS : agetE B "X_STEP" = .ok (.num (.val ((E - We) / (w : ℚ)))) := by
    apply agetE_eq_ok
    rw [hB]
    simp [aget_aset_self, aget_aset_ne]
  have hndB : NodupKeys B := by
    rw [hB]
    exact nodupKeys_aset _ _ (nodupKeys_aset _ _ (nodupKeys_aset _ _
      (nodupKeys_aset _ _ (nodupKeys_aset _ _ (nodupKeys_aset _ _
      (nodupKeys_aset _ _ (nodupKeys_aset _ _ hnd)))))))
  constructor
  · intro a b hrg
    refine ⟨_, by rw [hred,
      update_ref_point_set hhasB hryB hrxB hrg hYF hYS hysne hXF hXS hxsne],
      rfl, ?_, ?_, ?_, ?_⟩ <;>
      simp [aget_aset_self, aget_aset_ne]
  · intro hnan
    refine ⟨_, by rw [hred, update_ref_point_warn hhasB hryB hrxB hnan],
      rfl, ?_, ?_, ?_, ?_⟩
    · rw [aget_apopPair_ne (by decide) (by decide)]
      exact apopPair_fst hndB (by decide)
    · rw [aget_apopPair_ne (by decide) (by decide),
          apopPair_snd hndB, hgetY, hgy]
      rfl
    · exact apopPair_fst (nodupKeys_apopPair _ _ hndB) (by decide)
    · rw [apopPair_snd (nodupKeys_apopPair _ _ hndB),
          aget_apopPair_ne (by decide) (by decide),
          aget_apopPair_ne (by decide) (by decide)]
      rw [show aget "REF_LAT" B = aget "REF_LAT" atr from by
            rw [hB]; simp [aget_aset_ne],
          show aget "REF_LON" B = aget "REF_LON" atr from by
            rw [hB]; simp [aget_aset_ne]]

/-- Counterexample to C3 as stated: a metadata mapping containing `REF_Y`
but no `REF_X` makes `update_attribute` raise `KeyError` instead of either
updating or removing the reference fields. -/
theorem claim_C3_counterexample :
    ahas "REF_Y" atrNoRefX = true ∧
    update_attribute rgNan atrNoRefX rinps0 =
      Except.error "KeyError: REF_X" := ⟨rfl, rfl⟩

/-- Witness for the amended C3 in the in-coverage branch: the reference
pixel lands on the new grid at `REF_Y = 2`, `REF_X = 4`. -/
theorem claim_C3_witness :
    ∃ res, update_attribute rgOk atrRef rinps0 = Except.ok res ∧
      res.warned = false ∧
      aget "REF_LAT" res.atr = some (.str (ratStr 1)) ∧
      aget "REF_LON" res.atr = some (.str (ratStr 12)) ∧
      aget "REF_Y" res.atr = some (.str (toString (rintQ
        ((1 - 2 : ℚ) / ((0 - 2 : ℚ) / ((4 : ℕ) : ℚ)))))) ∧
      aget "REF_X" res.atr = some (.str (toString (rintQ
        ((12 - 10 : ℚ) / ((14 - 10 : ℚ) / ((8 : ℕ) : ℚ)))))) :=
  (@claim_C3_amended rgOk atrRef rinps0 [] 4 8 0 2 10 14 2 3
    (by decide) (by rfl) (by decide) (by decide) (by rfl)
    (by decide) (by decide) (by rfl) (by rfl)).1 1 12 (by rfl)

/-! ### Claims C4, C5, C6: template-value merging -/

/-- A key whose prefixed name is absent from the template is skipped. -/
theorem applyTemplateKey_absent {t : Template} {k : String} (i : Inps)
    (h : tget ("pysar.geocode." ++ k) t = none) :
    applyTemplateKey t i k = .ok i := by
  unfold applyTemplateKey
  rw [h]

/-- A key matching none of the coercion branches never updates `inps`. -/
theorem applyTemplateKey_other {t : Template} {k : String} (i : Inps)
    (h1 : k ≠ "SNWE") (h2 : k ≠ "latStep") (h3 : k ≠ "lonStep")
    (h4 : k ≠ "interpMethod") (h5 : k ≠ "fillValue") :
    applyTemplateKey t i k = .ok i := by
  unfold applyTemplateKey
  cases tget ("pysar.geocode." ++ k) t with
  | none => rfl
  | some v => simp [h1, h2, h3, h4, h5]

theorem appK_file (t : Template) (i : Inps) :
    applyTemplateKey t i "file" = .ok i :=
  applyTemplateKey_other i (by decide) (by decide) (by decide) (by decide)
    (by decide)

theorem appK_lookupFile (t : Template) (i : Inps) :
    applyTemplateKey t i "lookupFile" = .ok i :=
  applyTemplateKey_other i (by decide) (by decide) (by decide) (by decide)
    (by decide)

theorem appK_templateFile (t : Template) (i : Inps) :
    applyTemplateKey t i "templateFile" = .ok i :=
  applyTemplateKey_other i (by decide) (by decide) (by decide) (by decide)
    (by decide)

theorem appK_outfile (t : Template) (i : Inps) :
    applyTemplateKey t i "outfile" = .ok i :=
  applyTemplateKey_other i (by decide) (by decide) (by decide) (by decide)
    (by decide)

theorem appK_laloStep (t : Template) (i : Inps) :
    applyTemplateKey t i "laloStep" = .ok i :=
  applyTemplateKey_other i (by decide) (by decide) (by decide) (by decide)
    (by decide)

/-- Folding over the filtered key list equals folding over all keys, since
skipped keys act as the identity. -/
theorem foldlM_filter_eq (t : Template) (l : List String) (i : Inps) :
    (l.filter (fun k => (tget ("pysar.geocode." ++ k) t).isSome)).foldlM
        (applyTemplateKey t) i =
      l.foldlM (applyTemplateKey t) i := by
  induction l generalizing i with
  | nil => rfl
  | cons a l ih =>
    by_cases hp : (tget ("pysar.geocode." ++ a) t).isSome
    · rw [List.filter_cons_of_pos (by simpa using hp)]
      simp only [List.foldlM]
      cases h : applyTemplateKey t i a with
      | error e => rfl
      | ok i1 => exact ih i1
    · rw [List.filter_cons_of_neg (by simpa using hp)]
      simp only [List.foldlM]
      rw [applyTemplateKey_absent i
        (Option.not_isSome_iff_eq_none.1 (by simpa using hp))]
      exact ih i

theorem exbind_pure {α : Type} (x : Except String α) :
    x >>= pure = x := by
  cases x <;> rfl

theorem exbind_ok_right {α : Type} (x : Except String α) :
    (x >>= fun a => (Except.ok a : Except String α)) = x := by
  cases x <;> rfl

/-- The template merge is the five coercion steps followed by the
`laloStep` recomputation. -/
theorem read_chain (t : Template) (i : Inps) :
    read_template2inps t i =
      (applyTemplateKey t i "SNWE" >>=
        fun a => applyTemplateKey t a "latStep" >>=
        fun a => applyTemplateKey t a "lonStep" >>=
        fun a => applyTemplateKey t a "interpMethod" >>=
        fun a => applyTemplateKey t a "fillValue").map laloFix := by
  unfold read_template2inps
  rw [foldlM_filter_eq]
  simp only [inpsKeys, List.foldlM, appK_file, appK_lookupFile,
             appK_templateFile, appK_outfile, appK_laloStep, exbind_ok,
             exbind_pure, exbind_ok_right]

/-- the effect of one `applyTemplateKey` step on the untouched fields. -/
theorem appK_frame {t : Template} {i i' : Inps} {k : String}
    (hok : applyTemplateKey t i k = .ok i') :
    i'.file = i.file ∧ i'.lookupFile = i.lookupFile ∧
    i'.templateFile = i.templateFile ∧ i'.outfile = i.outfile ∧
    i'.laloStep = i.laloStep ∧
    (k ≠ "SNWE" → i'.SNWE = i.SNWE) ∧
    (k ≠ "latStep" → i'.latStep = i.latStep) ∧
    (k ≠ "lonStep" → i'.lonStep = i.lonStep) ∧
    (k ≠ "interpMethod" → i'.interpMethod = i.interpMethod) ∧
    (k ≠ "fillValue" → i'.fillValue = i.fillValue) := by
  unfold applyTemplateKey at hok
  cases htv : tget ("pysar.geocode." ++ k) t <;> rw [htv] at hok
  · cases hok
    simp
  · simp only [Except.map] at hok
    repeat' split at hok
    all_goals cases hok
    all_goals simp_all

theorem appK_SNWE_eq {t : Template} {i : Inps} {v : String}
    (hv : tget "pysar.geocode.SNWE" t = some v) (hne : v ≠ "") :
    applyTemplateKey t i "SNWE" =
      (coerceSNWE v).map (fun fs => { i with SNWE := some fs }) := by
  unfold applyTemplateKey
  simp [show ("pysar.geocode." ++ "SNWE") = "pysar.geocode.SNWE" from rfl, hv, hne]

theorem appK_latStep_eq {t : Template} {i : Inps} {v : String}
    (hv : tget "pysar.geocode.latStep" t = some v) (hne : v ≠ "") :
    applyTemplateKey t i "latStep" =
      (coerceFloat v).map (fun f => { i with latStep := some f }) := by
  unfold applyTemplateKey
  simp [show ("pysar.geocode." ++ "latStep") = "pysar.geocode.latStep" from rfl,
        hv, hne]

theorem appK_lonStep_eq {t : Template} {i : Inps} {v : String}
    (hv : tget "pysar.geocode.lonStep" t = some v) (hne : v ≠ "") :
    applyTemplateKey t i "lonStep" =
      (coerceFloat v).map (fun f => { i with lonStep := some f }) := by
  unfold applyTemplateKey
  simp [show ("pysar.geocode." ++ "lonStep") = "pysar.geocode.lonStep" from rfl,
        hv, hne]

theorem appK_interp_eq {t : Template} {i : Inps} {v : String}
    (hv : tget "pysar.geocode.interpMethod" t = some v) (hne : v ≠ "") :
    applyTemplateKey t i "interpMethod" =
      .ok { i with interpMethod := v } := by
  unfold applyTemplateKey
  simp [show ("pysar.geocode." ++ "interpMethod") = "pysar.geocode.interpMethod" from rfl, hv, hne]

theorem appK_fill_eq {t : Template} {i : Inps} {v : String}
    (hv : tget "pysar.geocode.fillValue" t = some v) (hne : v ≠ "") :
    applyTemplateKey t i "fillValue" =
      (coerceFill v).map (fun f => { i with fillValue := f }) := by
  unfold applyTemplateKey
  simp [show ("pysar.geocode." ++ "fillValue") = "pysar.geocode.fillValue" from rfl, hv, hne]

/-- Success of the merge decomposes into success of the five steps. -/
theorem read_ok_parts {t : Template} {i i' : Inps}
    (h : read_template2inps t i = .ok i') :
    ∃ i1 i2 i3 i4 i5,
      applyTemplateKey t i "SNWE" = .ok i1 ∧
      applyTemplateKey t i1 "latStep" = .ok i2 ∧
      applyTemplateKey t i2 "lonStep" = .ok i3 ∧
      applyTemplateKey t i3 "interpMethod" = .ok i4 ∧
      applyTemplateKey t i4 "fillValue" = .ok i5 ∧
      i' = laloFix i5 := by
  rw [read_chain] at h
  cases h1 : applyTemplateKey t i "SNWE" <;> rw [h1] at h
  · simp [exbind_err, exmap_err] at h
  case ok i1 =>
  rw [exbind_ok] at h
  cases h2 : applyTemplateKey t i1 "latStep" <;> rw [h2] at h
  · simp [exbind_err, exmap_err] at h
  case ok i2 =>
  rw [exbind_ok] at h
  cases h3 : applyTemplateKey t i2 "lonStep" <;> rw [h3] at h
  · simp [exbind_err, exmap_err] at h
  case ok i3 =>
  rw [exbind_ok] at h
  cases h4 : applyTemplateKey t i3 "interpMethod" <;> rw [h4] at h
  · simp [exbind_err, exmap_err] at h
  case ok i4 =>
  rw [exbind_ok] at h
  cases h5 : applyTemplateKey t i4 "fillValue" <;> rw [h5] at h
  · simp [exbind_err, exmap_err] at h
  case ok i5 =>
  rw [exmap_ok] at h
  exact ⟨i1, i2, i3, i4, i5, by simp only [h1], by simp only [h2],
         by simp only [h3], by simp only [h4], by simp only [h5],
         (Except.ok.inj h).symm⟩

theorem coerceSNWE_ok_iff {v : String} {fs : List PFloat} :
    coerceSNWE v = .ok fs ↔ (pySplitComma v).mapM pyFloat? = some fs := by
  unfold coerceSNWE
  cases h : (pySplitComma v).mapM pyFloat? <;> simp

theorem coerceFloat_ok_iff {v : String} {f : PFloat} :
    coerceFloat v = .ok f ↔ pyFloat? v = some f := by
  unfold coerceFloat
  cases h : pyFloat? v <;> simp

/-- Field-level description of a successful template merge. -/
theorem read_ok_fields {t : Template} {i i' : Inps}
    (h : read_template2inps t i = .ok i') :
    i'.file = i.file ∧ i'.lookupFile = i.lookupFile ∧
    i'.templateFile = i.templateFile ∧ i'.outfile = i.outfile ∧
    i'.laloStep = mkLaloStep i'.latStep i'.lonStep ∧
    (∀ v, tget "pysar.geocode.SNWE" t = some v → v ≠ "" →
      ∃ fs, coerceSNWE v = .ok fs ∧ i'.SNWE = some fs) ∧
    (∀ v, tget "pysar.geocode.latStep" t = some v → v ≠ "" →
      ∃ f, coerceFloat v = .ok f ∧ i'.latStep = some f) ∧
    (∀ v, tget "pysar.geocode.lonStep" t = some v → v ≠ "" →
      ∃ f, coerceFloat v = .ok f ∧ i'.lonStep = some f) ∧
    (∀ v, tget "pysar.geocode.interpMethod" t = some v → v ≠ "" →
      i'.interpMethod = v) ∧
    (∀ v, tget "pysar.geocode.fillValue" t = some v → v ≠ "" →
      ∃ f, coerceFill v = .ok f ∧ i'.fillValue = f) := by
  obtain ⟨i1, i2, i3, i4, i5, h1, h2, h3, h4, h5, hfix⟩ := read_ok_parts h
  obtain ⟨a1, b1, c1, d1, e1, s1, l1, o1, m1, g1⟩ := appK_frame h1
  obtain ⟨a2, b2, c2, d2, e2, s2, l2, o2, m2, g2⟩ := appK_frame h2
  obtain ⟨a3, b3, c3, d3, e3, s3, l3, o3, m3, g3⟩ := appK_frame h3
  obtain ⟨a4, b4, c4, d4, e4, s4, l4, o4, m4, g4⟩ := appK_frame h4
  obtain ⟨a5, b5, c5, d5, e5, s5, l5, o5, m5, g5⟩ := appK_frame h5
  subst hfix
  refine ⟨?_, ?_, ?_, ?_, ?_, ?_, ?_, ?_, ?_, ?_⟩
  · simp [laloFix, a5, a4, a3, a2, a1]
  · simp [laloFix, b5, b4, b3, b2, b1]
  · simp [laloFix, c5, c4, c3, c2, c1]
  · simp [laloFix, d5, d4, d3, d2, d1]
  · simp [laloFix, mkLaloStep]
  · intro v hv hne
    rw [appK_SNWE_eq hv hne] at h1
    cases hc : coerceSNWE v with
    | error e =>
      rw [hc] at h1
      exact absurd h1 (by simp [exmap_err])
    | ok fs =>
      rw [hc, exmap_ok] at h1
      have hi1 : { i with SNWE := some fs } = i1 := Except.ok.inj h1
      refine ⟨fs, rfl, ?_⟩
      simp [laloFix, s5 (by decide), s4 (by decide), s3 (by decide),
            s2 (by decide), ← hi1]
  · intro v hv hne
    rw [appK_latStep_eq hv hne] at h2
    cases hc : coerceFloat v with
    | error e =>
      rw [hc] at h2
      exact absurd h2 (by simp [exmap_err])
    | ok f =>
      rw [hc, exmap_ok] at h2
      have hi2 : { i1 with latStep := some f } = i2 := Except.ok.inj h2
      refine ⟨f, rfl, ?_⟩
      simp [laloFix, l5 (by decide), l4 (by decide), l3 (by decide), ← hi2]
  · intro v hv hne
    rw [appK_lonStep_eq hv hne] at h3
    cases hc : coerceFloat v with
    | error e =>
      rw [hc] at h3
      exact absurd h3 (by simp [exmap_err])
    | ok f =>
      rw [hc, exmap_ok] at h3
      have hi3 : { i2 with lonStep := some f } = i3 := Except.ok.inj h3
      refine ⟨f, rfl, ?_⟩
      simp [laloFix, o5 (by decide), o4 (by decide), ← hi3]
  · intro v hv hne
    rw [appK_interp_eq hv hne] at h4
    have hi4 : { i3 with interpMethod := v } = i4 := Except.ok.inj h4
    simp [laloFix, m5 (by decide), ← hi4]
  · intro v hv hne
    rw [appK_fill_eq hv hne] at h5
    cases hc : coerceFill v with
    | error e =>
      rw [hc] at h5
      exact absurd h5 (by simp [exmap_err])
    | ok f =>
      rw [hc, exmap_ok] at h5
      have hi5 : { i4 with fillValue := f } = i5 := Except.ok.inj h5
      refine ⟨f, rfl, ?_⟩
      simp [laloFix, ← hi5]

/-- One `applyTemplateKey` step only reads the template at its own key. -/
theorem appK_congr {t1 t2 : Template} {k : String}
    (h : tget ("pysar.geocode." ++ k) t1 = tget ("pysar.geocode." ++ k) t2)
    (i : Inps) : applyTemplateKey t1 i k = applyTemplateKey t2 i k := by
  unfold applyTemplateKey
  rw [h]

/-- C4: coercion of the recognized template fields: `SNWE` is split on
commas and every piece converted with `float()`; `latStep`/`lonStep` are
converted with `float()`; `interpMethod` is kept as the string; `fillValue`
becomes NaN whenever the lowercased value contains `nan` and is converted
with `float()` otherwise. -/
theorem claim_C4 {t : Template} {i i' : Inps}
    (h : read_template2inps t i = .ok i') :
    (∀ v, tget "pysar.geocode.SNWE" t = some v → v ≠ "" →
      ∃ fs, (pySplitComma v).mapM pyFloat? = some fs ∧ i'.SNWE = some fs) ∧
    (∀ v, tget "pysar.geocode.latStep" t = some v → v ≠ "" →
      ∃ f, pyFloat? v = some f ∧ i'.latStep = some f) ∧
    (∀ v, tget "pysar.geocode.lonStep" t = some v → v ≠ "" →
      ∃ f, pyFloat? v = some f ∧ i'.lonStep = some f) ∧
    (∀ v, tget "pysar.geocode.interpMethod" t = some v → v ≠ "" →
      i'.interpMethod = v) ∧
    (∀ v, tget "pysar.geocode.fillValue" t = some v → v ≠ "" →
      (hasNanSub v = true → i'.fillValue = .nan) ∧
      (hasNanSub v = false →
        ∃ f, pyFloat? v = some f ∧ i'.fillValue = f)) := by
  obtain ⟨-, -, -, -, -, hS, hLat, hLon, hI, hF⟩ := read_ok_fields h
  refine ⟨?_, ?_, ?_, hI, ?_⟩
  · intro v hv hne
    obtain ⟨fs, hok, hfield⟩ := hS v hv hne
    exact ⟨fs, coerceSNWE_ok_iff.1 hok, hfield⟩
  · intro v hv hne
    obtain ⟨f, hok, hfield⟩ := hLat v hv hne
    exact ⟨f, coerceFloat_ok_iff.1 hok, hfield⟩
  · intro v hv hne
    obtain ⟨f, hok, hfield⟩ := hLon v hv hne
    exact ⟨f, coerceFloat_ok_iff.1 hok, hfield⟩
  · intro v hv hne
    obtain ⟨f, hok, hfield⟩ := hF v hv hne
    constructor
    · intro hnan
      unfold coerceFill at hok
      rw [if_pos hnan] at hok
      rw [hfield, ← Except.ok.inj hok]
    · intro hnan
      unfold coerceFill at hok
      rw [if_neg (by simp [hnan])] at hok
      exact ⟨f, coerceFloat_ok_iff.1 hok, hfield⟩

/-- Witness for C4 on a concrete template exercising the `SNWE`, `latStep`
and `fillValue`-NaN coercions. -/
theorem claim_C4_witness :
    ∃ i', read_template2inps tmplGood inps0 = Except.ok i' ∧
      (∃ fs, (pySplitComma "-1.2,0.5,-92,-91").mapM pyFloat? = some fs ∧
        i'.SNWE = some fs) ∧
      (∃ f, pyFloat? "0.001" = some f ∧ i'.latStep = some f) ∧
      i'.fillValue = PFloat.nan := by
  obtain ⟨i', hr⟩ : ∃ r, read_template2inps tmplGood inps0 = Except.ok r :=
    ⟨_, rfl⟩
  have c := claim_C4 hr
  exact ⟨i', hr, c.1 _ rfl (by decide), c.2.1 _ rfl (by decide),
         (c.2.2.2.2 _ rfl (by decide)).1 (by decide)⟩

/-- Counterexample to C5 as stated: the bare `pysar.geocode` key, present
with a truthy value, updates nothing — the returned record is the input
unchanged, because the loop only looks up `pysar.geocode.` ++ an `inps`
attribute name. -/
theorem claim_C5_counterexample :
    tget "pysar.geocode" tmplBare = some "yes" ∧
    ("yes" : String) ≠ "" ∧
    read_template2inps tmplBare inps0 = Except.ok inps0 :=
  ⟨rfl, by decide, by rfl⟩

/-- C5 (amended): the merge reads exactly the five dotted keys
`pysar.geocode.{SNWE, latStep, lonStep, interpMethod, fillValue}` — its
result depends only on those template entries — and each of them, when
present with a truthy value, overrides the corresponding option (the
resulting field does not depend on its prior value).  The bare key
`pysar.geocode` (and any other `pysar.geocode.`-prefixed key such as
`pysar.geocode.file`) never causes an update; see
`claim_C5_counterexample`. -/
theorem claim_C5_amended :
    (∀ t1 t2 : Template, ∀ i : Inps,
      tget "pysar.geocode.SNWE" t1 = tget "pysar.geocode.SNWE" t2 →
      tget "pysar.geocode.latStep" t1 = tget "pysar.geocode.latStep" t2 →
      tget "pysar.geocode.lonStep" t1 = tget "pysar.geocode.lonStep" t2 →
      tget "pysar.geocode.interpMethod" t1 =
        tget "pysar.geocode.interpMethod" t2 →
      tget "pysar.geocode.fillValue" t1 = tget "pysar.geocode.fillValue" t2 →
      read_template2inps t1 i = read_template2inps t2 i) ∧
    (∀ t : Template, ∀ i1 i2 o1 o2 : Inps, ∀ v : String,
      read_template2inps t i1 = .ok o1 → read_template2inps t i2 = .ok o2 →
      ((tget "pysar.geocode.SNWE" t = some v → v ≠ "" →
          o1.SNWE = o2.SNWE) ∧
       (tget "pysar.geocode.latStep" t = some v → v ≠ "" →
          o1.latStep = o2.latStep) ∧
       (tget "pysar.geocode.lonStep" t = some v → v ≠ "" →
          o1.lonStep = o2.lonStep) ∧
       (tget "pysar.geocode.interpMethod" t = some v → v ≠ "" →
          o1.interpMethod = o2.interpMethod) ∧
       (tget "pysar.geocode.fillValue" t = some v → v ≠ "" →
          o1.fillValue = o2.fillValue))) := by
  constructor
  · intro t1 t2 i hS hLat hLon hI hF
    rw [read_chain, read_chain]
    have e1 := @appK_congr t1 t2 "SNWE" hS
    have e2 := @appK_congr t1 t2 "latStep" hLat
    have e3 := @appK_congr t1 t2 "lonStep" hLon
    have e4 := @appK_congr t1 t2 "interpMethod" hI
    have e5 := @appK_congr t1 t2 "fillValue" hF
    simp only [e1, e2, e3, e4, e5]
  · intro t i1 i2 o1 o2 v h1 h2
    obtain ⟨-, -, -, -, -, hS1, hLat1, hLon1, hI1, hF1⟩ := read_ok_fields h1
    obtain ⟨-, -, -, -, -, hS2, hLat2, hLon2, hI2, hF2⟩ := read_ok_fields h2
    refine ⟨?_, ?_, ?_, ?_, ?_⟩ <;> intro hv hne
    · obtain ⟨a1, hc1, hf1⟩ := hS1 v hv hne
      obtain ⟨a2, hc2, hf2⟩ := hS2 v hv hne
      rw [hf1, hf2, Except.ok.inj (hc1.symm.trans hc2)]
    · obtain ⟨a1, hc1, hf1⟩ := hLat1 v hv hne
      obtain ⟨a2, hc2, hf2⟩ := hLat2 v hv hne
      rw [hf1, hf2, Except.ok.inj (hc1.symm.trans hc2)]
    · obtain ⟨a1, hc1, hf1⟩ := hLon1 v hv hne
      obtain ⟨a2, hc2, hf2⟩ := hLon2 v hv hne
      rw [hf1, hf2, Except.ok.inj (hc1.symm.trans hc2)]
    · rw [hI1 v hv hne, hI2 v hv hne]
    · obtain ⟨a1, hc1, hf1⟩ := hF1 v hv hne
      obtain ⟨a2, hc2, hf2⟩ := hF2 v hv hne
      rw [hf1, hf2, Except.ok.inj (hc1.symm.trans hc2)]

/-- Witness for the amended C5: adding the bare key, and a
`pysar.geocode.file` entry, to a template does not change the merge. -/
theorem claim_C5_witness :
    read_template2inps tmplNoisy inps0 = read_template2inps tmplGood inps0 :=
  claim_C5_amended.1 tmplNoisy tmplGood inps0 rfl rfl rfl rfl rfl

/-- C6: a malformed numeric template value (`SNWE` not a comma-separated
list of floats, `latStep`/`lonStep`/`fillValue` not parseable) makes
`read_template2inps` raise; the exception propagates (the result is an
error, never a cleanly-returned record with a default). -/
theorem claim_C6 {t : Template} {i : Inps} :
    (∀ v, tget "pysar.geocode.SNWE" t = some v → v ≠ "" →
      (pySplitComma v).mapM pyFloat? = none →
      ∃ m, read_template2inps t i = .error m) ∧
    (∀ v, tget "pysar.geocode.latStep" t = some v → v ≠ "" →
      pyFloat? v = none → ∃ m, read_template2inps t i = .error m) ∧
    (∀ v, tget "pysar.geocode.lonStep" t = some v → v ≠ "" →
      pyFloat? v = none → ∃ m, read_template2inps t i = .error m) ∧
    (∀ v, tget "pysar.geocode.fillValue" t = some v → v ≠ "" →
      hasNanSub v = false → pyFloat? v = none →
      ∃ m, read_template2inps t i = .error m) := by
  refine ⟨?_, ?_, ?_, ?_⟩
  · intro v hv hne hparse
    rw [read_chain, appK_SNWE_eq hv hne,
        show coerceSNWE v = .error "ValueError: could not convert string to float"
          from by unfold coerceSNWE; rw [hparse]]
    exact ⟨"ValueError: could not convert string to float",
           by simp [exmap_err, exbind_err]⟩
  · intro v hv hne hparse
    rw [read_chain]
    cases h1 : applyTemplateKey t i "SNWE" with
    | error e => exact ⟨e, by simp [exmap_err, exbind_err]⟩
    | ok i1 =>
      rw [exbind_ok, appK_latStep_eq hv hne,
          show coerceFloat v = .error "ValueError: could not convert string to float"
            from by unfold coerceFloat; rw [hparse]]
      exact ⟨"ValueError: could not convert string to float",
           by simp [exmap_err, exbind_err]⟩
  · intro v hv hne hparse
    rw [read_chain]
    cases h1 : applyTemplateKey t i "SNWE" with
    | error e => exact ⟨e, by simp [exmap_err, exbind_err]⟩
    | ok i1 =>
      rw [exbind_ok]
      cases h2 : applyTemplateKey t i1 "latStep" with
      | error e => exact ⟨e, by simp [exmap_err, exbind_err]⟩
      | ok i2 =>
        rw [exbind_ok, appK_lonStep_eq hv hne,
            show coerceFloat v = .error "ValueError: could not convert string to float"
              from by unfold coerceFloat; rw [hparse]]
        exact ⟨"ValueError: could not convert string to float",
           by simp [exmap_err, exbind_err]⟩
  · intro v hv hne hnan hparse
    rw [read_chain]
    cases h1 : applyTemplateKey t i "SNWE" with
    | error e => exact ⟨e, by simp [exmap_err, exbind_err]⟩
    | ok i1 =>
      rw [exbind_ok]
      cases h2 : applyTemplateKey t i1 "latStep" with
      | error e => exact ⟨e, by simp [exmap_err, exbind_err]⟩
      | ok i2 =>
        rw [exbind_ok]
        cases h3 : applyTemplateKey t i2 "lonStep" with
        | error e => exact ⟨e, by simp [exmap_err, exbind_err]⟩
        | ok i3 =>
          rw [exbind_ok]
          cases h4 : applyTemplateKey t i3 "interpMethod" with
          | error e => exact ⟨e, by simp [exmap_err, exbind_err]⟩
          | ok i4 =>
            rw [exbind_ok, appK_fill_eq hv hne,
                show coerceFill v =
                    .error "ValueError: could not convert string to float"
                  from by
                    unfold coerceFill coerceFloat
                    rw [if_neg (by simp [hnan]), hparse]]
            exact ⟨"ValueError: could not convert string to float",
           by simp [exmap_err, exbind_err]⟩

/-- Witness for C6: the template value `abc` for `SNWE` raises. -/
theorem claim_C6_witness :
    ∃ m, read_template2inps tmplBad inps0 = Except.error m :=
  (claim_C6 (t := tmplBad) (i := inps0)).1 "abc" rfl (by decide) (by rfl)

end Radar2Geo

namespace Radar2Geo

/-- C1: `cmd_line_parse` exits with the no-input-file message when the
resolved file list is empty, exits with the no-lookup-table message when the
resolved lookup file is falsy, and otherwise returns the parsed options
record (with the resolved lists and the derived `laloStep`) without
exiting. -/
theorem claim_C1 (gfl : List String → List String)
    (glk : Option String → Option String) (args : ParsedArgs) :
    (gfl args.file = [] →
      cmd_line_parse gfl glk args = .error "ERROR: no input file found!") ∧
    (gfl args.file ≠ [] → optStrFalsy (glk args.lookupFile) = true →
      cmd_line_parse gfl glk args =
        .error "ERROR: No lookup table found! Can not geocode without it.") ∧
    (gfl args.file ≠ [] → optStrFalsy (glk args.lookupFile) = false →
      ∃ i, cmd_line_parse gfl glk args = .ok i ∧
        i.file = gfl args.file ∧ i.lookupFile = glk args.lookupFile ∧
        i.templateFile = args.templateFile ∧ i.SNWE = args.SNWE ∧
        i.latStep = args.latStep ∧ i.lonStep = args.lonStep ∧
        i.interpMethod = args.interpMethod ∧ i.fillValue = args.fillValue ∧
        i.outfile = args.outfile ∧
        i.laloStep = mkLaloStep args.latStep args.lonStep) := by
  refine ⟨?_, ?_, ?_⟩
  · intro h
    unfold cmd_line_parse
    rw [if_pos (by simp [h])]
  · intro h1 h2
    unfold cmd_line_parse
    rw [if_neg (by simp [List.isEmpty_iff, h1]), if_pos h2]
  · intro h1 h2
    unfold cmd_line_parse
    rw [if_neg (by simp [List.isEmpty_iff, h1]), if_neg (by simp [h2])]
    exact ⟨_, rfl, rfl, rfl, rfl, rfl, rfl, rfl, rfl, rfl, rfl, rfl⟩

/-- Witness for C1 exercising the three branches on concrete inputs. -/
theorem claim_C1_witness :
    cmd_line_parse (fun l => l) (fun _ => some "geometryRadar.h5") argsNoFile =
      Except.error "ERROR: no input file found!" ∧
    cmd_line_parse (fun l => l) (fun _ => none) args0 =
      Except.error "ERROR: No lookup table found! Can not geocode without it." ∧
    ∃ i, cmd_line_parse (fun l => l) (fun _ => some "geometryRadar.h5") args0 =
      Except.ok i ∧ i.file = ["velocity.h5", "t.h5"] := by
  refine ⟨(claim_C1 (fun l => l) (fun _ => some "geometryRadar.h5")
            argsNoFile).1 rfl,
          (claim_C1 (fun l => l) (fun _ => none) args0).2.1 (by decide) rfl,
          ?_⟩
  obtain ⟨i, hok, hfile, -⟩ :=
    (claim_C1 (fun l => l) (fun _ => some "geometryRadar.h5") args0).2.2
      (by decide) rfl
  exact ⟨i, hok, hfile.trans rfl⟩

/-- A successful `geocode_file` call with no explicit output name yields
the four-event block and the `geo_`-prefixed output path. -/
theorem geocode_file_ok {O : Oracles} {r : RunInps} {f : String}
    {p : List Ev × String} (h : geocode_file O r f none = .ok p) :
    p = (fileEvents r.interpMethod r.fillValue f, geoPath f) := by
  unfold geocode_file at h
  simp only [Bind.bind, Except.bind] at h
  split at h
  · cases h
  · cases h
    rfl

/-- The per-file loop of `main` appends one block per input file, in
order. -/
theorem gcf_fold_ok {O : Oracles} {r : RunInps} :
    ∀ (fs : List String) (acc evs : List Ev),
      fs.foldlM (fun acc f => do
          let p ← geocode_file O r f none
          Except.ok (acc ++ p.1)) acc = .ok evs →
      evs = acc ++ (fs.map (fileEvents r.interpMethod r.fillValue)).flatten := by
  intro fs
  induction fs with
  | nil =>
    intro acc evs h
    simp only [List.foldlM] at h
    cases h
    simp
  | cons f t ih =>
    intro acc evs h
    simp only [List.foldlM, Bind.bind, Except.bind] at h
    cases hg : geocode_file O r f none with
    | error e =>
      rw [hg] at h
      simp at h
    | ok p =>
      rw [hg] at h
      simp only at h
      have he := ih (acc ++ p.1) evs h
      rw [geocode_file_ok hg] at he
      rw [he]
      simp

/-- Structure of a successful `mainFrom` run: one construction event from
the first file, one geometry event, then the per-file blocks in order. -/
theorem mainFrom_ok {O : Oracles} {i : Inps} {evs : List Ev}
    (h : mainFrom O i = .ok evs) :
    ∃ f0 rest, i.file = f0 :: rest ∧
      evs = Ev.construct i.lookupFile f0 i.SNWE i.latStep ::
        Ev.getGeometry ::
        (i.file.map (fileEvents i.interpMethod i.fillValue)).flatten := by
  unfold mainFrom at h
  cases hf : i.file with
  | nil =>
    rw [hf] at h
    simp [Bind.bind, Except.bind] at h
  | cons f0 rest =>
    rw [hf] at h
    simp only [Bind.bind, Except.bind] at h
    split at h
    · cases h
    · cases h
      rename_i evs' heq
      refine ⟨f0, rest, rfl, ?_⟩
      rw [gcf_fold_ok (f0 :: rest) [] evs' heq]
      simp

/-- C7: `main` constructs the resample object exactly once, from the first
input file, computes the geometry once, and then runs the read / resample /
update-metadata / write block of `geocode_file` for each input file in list
order, each block completing before the next file starts. -/
theorem claim_C7 {O : Oracles} {args : ParsedArgs} {evs : List Ev}
    (h : main O args = .ok evs) :
    ∃ i f0 rest, mergeInps O args = .ok i ∧ i.file = f0 :: rest ∧
      evs = Ev.construct i.lookupFile f0 i.SNWE i.latStep ::
        Ev.getGeometry ::
        ((f0 :: rest).map (fileEvents i.interpMethod i.fillValue)).flatten := by
  unfold main at h
  cases hm : mergeInps O args with
  | error e =>
    rw [hm] at h
    simp [exbind_err] at h
  | ok i =>
    rw [hm, exbind_ok] at h
    obtain ⟨f0, rest, hfile, hevs⟩ := mainFrom_ok h
    exact ⟨i, f0, rest, rfl, hfile, by rw [hevs, hfile]⟩

/-- Witness for C7: a full two-file run produces the expected trace. -/
theorem claim_C7_witness :
    ∃ i f0 rest, mergeInps or0 args0 = Except.ok i ∧ i.file = f0 :: rest ∧
      evs0 = Ev.construct i.lookupFile f0 i.SNWE i.latStep ::
        Ev.getGeometry ::
        ((f0 :: rest).map (fileEvents i.interpMethod i.fillValue)).flatten :=
  @claim_C7 or0 args0 evs0 (by rfl)

end Radar2Geo

namespace Radar2Geo

theorem strip_laloFix (j : Inps) : stripLonOut (laloFix j) = stripLonOut j := by
  cases j
  simp [stripLonOut, laloFix]

theorem cmd_strip {gfl : List String → List String}
    {glk : Option String → Option String} {a1 a2 : ParsedArgs}
    (h1 : a1.file = a2.file) (h2 : a1.lookupFile = a2.lookupFile)
    (h3 : a1.templateFile = a2.templateFile) (h4 : a1.SNWE = a2.SNWE)
    (h5 : a1.latStep = a2.latStep) (h6 : a1.interpMethod = a2.interpMethod)
    (h7 : a1.fillValue = a2.fillValue) :
    (cmd_line_parse gfl glk a1).map stripLonOut =
      (cmd_line_parse gfl glk a2).map stripLonOut := by
  cases a1
  cases a2
  dsimp only at h1 h2 h3 h4 h5 h6 h7
  subst h1 h2 h3 h4 h5 h6 h7
  unfold cmd_line_parse
  rename_i f lk tf sn lat im fv lon1 of1 lon2 of2
  by_cases c1 : (gfl f).isEmpty
  · rw [if_pos c1, if_pos c1]
  · rw [if_neg c1, if_neg c1]
    by_cases c2 : optStrFalsy (glk lk)
    · rw [if_pos c2, if_pos c2]
    · rw [if_neg c2, if_neg c2]
      simp [stripLonOut, Except.map]

theorem appK_strip {t : Template} {k : String} {i1 i2 : Inps}
    (h : stripLonOut i1 = stripLonOut i2) :
    (applyTemplateKey t i1 k).map stripLonOut =
      (applyTemplateKey t i2 k).map stripLonOut := by
  cases i1
  cases i2
  simp only [stripLonOut, Inps.mk.injEq, and_true, true_and] at h
  obtain ⟨e1, e2, e3, e4, e5, e6, e7⟩ := h
  subst e1 e2 e3 e4 e5 e6 e7
  unfold applyTemplateKey
  cases tget ("pysar.geocode." ++ k) t with
  | none => simp [Except.map, stripLonOut]
  | some v =>
    by_cases hv : v = ""
    · simp [hv, Except.map, stripLonOut]
    · by_cases k1 : k = "SNWE"
      · simp only [if_neg hv, if_pos k1]
        cases hc : coerceSNWE v <;> simp [hc, Except.map, stripLonOut]
      · by_cases k2 : k = "latStep"
        · simp only [if_neg hv, if_neg k1, if_pos k2]
          cases hc : coerceFloat v <;> simp [hc, Except.map, stripLonOut]
        · by_cases k3 : k = "lonStep"
          · simp only [if_neg hv, if_neg k1, if_neg k2, if_pos k3]
            cases hc : coerceFloat v <;> simp [hc, Except.map, stripLonOut]
          · by_cases k4 : k = "interpMethod"
            · simp only [if_neg hv, if_neg k1, if_neg k2, if_neg k3, if_pos k4]
              simp [Except.map, stripLonOut]
            · by_cases k5 : k = "fillValue"
              · simp only [if_neg hv, if_neg k1, if_neg k2, if_neg k3,
                  if_neg k4, if_pos k5]
                cases hc : coerceFill v <;> simp [hc, Except.map, stripLonOut]
              · simp only [if_neg hv, if_neg k1, if_neg k2, if_neg k3,
                  if_neg k4, if_neg k5]
                simp [Except.map, stripLonOut]

theorem fold_strip {t : Template} :
    ∀ (ks : List String) {i1 i2 : Inps}, stripLonOut i1 = stripLonOut i2 →
      (ks.foldlM (applyTemplateKey t) i1).map stripLonOut =
        (ks.foldlM (applyTemplateKey t) i2).map stripLonOut := by
  intro ks
  induction ks with
  | nil =>
    intro i1 i2 h
    simp [List.foldlM, pure, Except.pure, Except.map, h]
  | cons k ks ih =>
    intro i1 i2 h
    simp only [List.foldlM]
    have hs := appK_strip (t := t) (k := k) h
    cases ha1 : applyTemplateKey t i1 k with
    | error e =>
      cases ha2 : applyTemplateKey t i2 k with
      | error e2 =>
        rw [ha1, ha2] at hs
        simp only [exmap_err] at hs
        simp [ha1, ha2, exbind_err, exmap_err, Except.error.inj hs]
      | ok j2 =>
        rw [ha1, ha2] at hs
        simp [exmap_err, exmap_ok] at hs
    | ok j1 =>
      cases ha2 : applyTemplateKey t i2 k with
      | error e2 =>
        rw [ha1, ha2] at hs
        simp [exmap_err, exmap_ok] at hs
      | ok j2 =>
        rw [ha1, ha2, exmap_ok, exmap_ok] at hs
        simp only [ha1, ha2, exbind_ok]
        exact ih (Except.ok.inj hs)

theorem read_strip {t : Template} {i1 i2 : Inps}
    (h : stripLonOut i1 = stripLonOut i2) :
    (read_template2inps t i1).map stripLonOut =
      (read_template2inps t i2).map stripLonOut := by
  unfold read_template2inps
  have hm : ∀ x : Except String Inps,
      (x.map laloFix).map stripLonOut = x.map stripLonOut := by
    intro x
    cases x <;> simp [Except.map, strip_laloFix]
  rw [hm, hm]
  exact fold_strip _ h

theorem mainFrom_strip {O : Oracles} {j1 j2 : Inps}
    (h : stripLonOut j1 = stripLonOut j2) :
    mainFrom O j1 = mainFrom O j2 := by
  cases j1
  cases j2
  simp only [stripLonOut, Inps.mk.injEq, and_true, true_and] at h
  obtain ⟨e1, e2, e3, e4, e5, e6, e7⟩ := h
  subst e1 e2 e3 e4 e5 e6 e7
  rfl

theorem mergeInps_strip {O : Oracles} {a1 a2 : ParsedArgs}
    (h1 : a1.file = a2.file) (h2 : a1.lookupFile = a2.lookupFile)
    (h3 : a1.templateFile = a2.templateFile) (h4 : a1.SNWE = a2.SNWE)
    (h5 : a1.latStep = a2.latStep) (h6 : a1.interpMethod = a2.interpMethod)
    (h7 : a1.fillValue = a2.fillValue) :
    (mergeInps O a1).map stripLonOut = (mergeInps O a2).map stripLonOut := by
  unfold mergeInps
  have hc := @cmd_strip O.getFileList O.getLookupFile a1 a2
    h1 h2 h3 h4 h5 h6 h7
  cases hc1 : cmd_line_parse O.getFileList O.getLookupFile a1 with
  | error e =>
    cases hc2 : cmd_line_parse O.getFileList O.getLookupFile a2 with
    | error e2 =>
      rw [hc1, hc2] at hc
      simp only [exmap_err] at hc
      simp [exbind_err, Except.error.inj hc]
    | ok j2 =>
      rw [hc1, hc2] at hc
      simp [exmap_err, exmap_ok] at hc
  | ok j1 =>
    cases hc2 : cmd_line_parse O.getFileList O.getLookupFile a2 with
    | error e2 =>
      rw [hc1, hc2] at hc
      simp [exmap_err, exmap_ok] at hc
    | ok j2 =>
      rw [hc1, hc2, exmap_ok, exmap_ok] at hc
      have hj := Except.ok.inj hc
      simp only [exbind_ok]
      have htf : j1.templateFile = j2.templateFile := by
        have h0 := congrArg Inps.templateFile hj
        simpa [stripLonOut] using h0
      cases ht : j1.templateFile with
      | none =>
        rw [ht] at htf
        rw [← htf]
        simp [exmap_ok, hj]
      | some tf =>
        rw [ht] at htf
        rw [← htf]
        by_cases he : tf = ""
        · simp [he, exmap_ok, hj]
        · simp only [if_neg he]
          exact read_strip hj

theorem main_invar {O : Oracles} {a1 a2 : ParsedArgs}
    (h1 : a1.file = a2.file) (h2 : a1.lookupFile = a2.lookupFile)
    (h3 : a1.templateFile = a2.templateFile) (h4 : a1.SNWE = a2.SNWE)
    (h5 : a1.latStep = a2.latStep) (h6 : a1.interpMethod = a2.interpMethod)
    (h7 : a1.fillValue = a2.fillValue) :
    main O a1 = main O a2 := by
  unfold main
  have hm := mergeInps_strip (O := O) h1 h2 h3 h4 h5 h6 h7
  cases hm1 : mergeInps O a1 with
  | error e =>
    cases hm2 : mergeInps O a2 with
    | error e2 =>
      rw [hm1, hm2] at hm
      simp only [exmap_err] at hm
      simp [exbind_err, Except.error.inj hm]
    | ok j2 =>
      rw [hm1, hm2] at hm
      simp [exmap_err, exmap_ok] at hm
  | ok j1 =>
    cases hm2 : mergeInps O a2 with
    | error e2 =>
      rw [hm1, hm2] at hm
      simp [exmap_err, exmap_ok] at hm
    | ok j2 =>
      rw [hm1, hm2, exmap_ok, exmap_ok] at hm
      simp only [exbind_ok]
      exact mainFrom_strip (Except.ok.inj hm)

/-- C8: `main` passes `laloStep=inps.latStep` to the resample constructor:
the head of every successful trace is a construction event whose step
argument is the merged `latStep` alone, and the whole behaviour of `main`
is invariant under the `lonStep` option. -/
theorem claim_C8 (O : Oracles) (args : ParsedArgs) (v : Option PFloat) :
    main O { args with lonStep := v } = main O args ∧
    (∀ i evs, mergeInps O args = .ok i → main O args = .ok evs →
      ∃ f0 rest, i.file = f0 :: rest ∧
        evs.head? =
          some (Ev.construct i.lookupFile f0 i.SNWE i.latStep)) := by
  constructor
  · exact main_invar rfl rfl rfl rfl rfl rfl rfl
  · intro i evs hm h
    unfold main at h
    rw [hm, exbind_ok] at h
    obtain ⟨f0, rest, hfile, hevs⟩ := mainFrom_ok h
    exact ⟨f0, rest, hfile, by rw [hevs]; rfl⟩

/-- Witness for C8: on a concrete two-file run, changing `-x` does not
change the trace, and the construction event records `latStep` only. -/
theorem claim_C8_witness :
    main or0 { args0 with lonStep := some (PFloat.val 1) } = main or0 args0 ∧
    ∃ f0 rest, inpsMerged0.file = f0 :: rest ∧
      evs0.head? = some (Ev.construct inpsMerged0.lookupFile f0
        inpsMerged0.SNWE inpsMerged0.latStep) :=
  ⟨(claim_C8 or0 args0 (some (PFloat.val 1))).1,
   (claim_C8 or0 args0 none).2 inpsMerged0 evs0 (by rfl) (by rfl)⟩

/-- C9: `main` never passes the parsed `-o` value on — its behaviour is
invariant under the `outfile` option — and every write event of a
successful run targets the input file's directory with `geo_` prefixed to
the input file's basename. -/
theorem claim_C9 (O : Oracles) (args : ParsedArgs) (o : Option (List String)) :
    main O { args with outfile := o } = main O args ∧
    (∀ evs p src, main O args = .ok evs → Ev.writeData p src ∈ evs →
      p = geoPath src) := by
  constructor
  · exact main_invar rfl rfl rfl rfl rfl rfl rfl
  · intro evs p src h hmem
    cases hm : mergeInps O args with
    | error e =>
      unfold main at h
      rw [hm] at h
      simp [exbind_err] at h
    | ok i =>
      unfold main at h
      rw [hm, exbind_ok] at h
      obtain ⟨f0, rest, hfile, hevs⟩ := mainFrom_ok h
      subst hevs
      simp only [List.mem_cons] at hmem
      rcases hmem with h1 | h1 | h1
      · simp at h1
      · simp at h1
      · rw [List.mem_flatten] at h1
        obtain ⟨l, hl, hmem2⟩ := h1
        rw [List.mem_map] at hl
        obtain ⟨f, -, hfl⟩ := hl
        subst hfl
        simp only [fileEvents, List.mem_cons, List.not_mem_nil, or_false]
          at hmem2
        rcases hmem2 with h2 | h2 | h2 | h2
        · simp at h2
        · simp at h2
        · simp at h2
        · obtain ⟨hp, hsrc⟩ := Ev.writeData.inj h2
          rw [hp, hsrc]

/-- Witness for C9: passing `-o` does not change a concrete run, and the
trace writes `geo_t.h5` for input `t.h5`. -/
theorem claim_C9_witness :
    main or0 { args0 with outfile := some ["custom.h5"] } = main or0 args0 ∧
    "geo_t.h5" = geoPath "t.h5" :=
  ⟨(claim_C9 or0 args0 (some ["custom.h5"])).1,
   (claim_C9 or0 args0 none).2 evs0 "geo_t.h5" "t.h5" (by rfl) (by decide)⟩

end Radar2Geo
